import Mathlib

set_option maxRecDepth 4000

namespace Mokapot

/-- Errors of class-file parsing, from src/elements/parsing/error.rs. The two
in-repo drafts disagree on payloads (one declares MalformedClassFile with no
payload while callers in method_info.rs attach a static message, and one
declares UnknownFlags with one field while callers pass a site string); this
model unifies them: malformedClassFile carries the message string (the empty
string where the source attaches none), unknownFlags carries bits and site,
and unexpectedOpCode carries the offending byte as declared in error.rs.
midmatchedConstantPoolTag is the (sic) variant referenced by
elements/attributes/annotation.rs. -/
inductive ClassFileParsingError where
  | readFail : ClassFileParsingError
  | malformedClassFile : String → ClassFileParsingError
  | mismatchedConstantPoolEntryType : String → String → ClassFileParsingError
  | midmatchedConstantPoolTag : ClassFileParsingError
  | badConstantPoolIndex : Nat → ClassFileParsingError
  | unknownAttribute : String → ClassFileParsingError
  | invalidAttributeLength : Nat → Nat → ClassFileParsingError
  | unexpectedAttribute : String → String → ClassFileParsingError
  | unexpectedData : ClassFileParsingError
  | invalidElementValueTag : Nat → ClassFileParsingError
  | invalidTargetType : Nat → ClassFileParsingError
  | invalidTypePathKind : ClassFileParsingError
  | unknownStackMapFrameType : Nat → ClassFileParsingError
  | invalidVerificationTypeInfoTag : Nat → ClassFileParsingError
  | unexpectedOpCode : Nat → ClassFileParsingError
  | unknownFlags : Nat → String → ClassFileParsingError
  | invalidDescriptor : String → ClassFileParsingError
  | unexpectedConstantPoolTag : Nat → ClassFileParsingError
  | notAClassFile : ClassFileParsingError
  | invalidJumpTarget : ClassFileParsingError
  deriving DecidableEq

/-- Result alias mirroring ClassFileParsingResult. -/
abbrev PResult (α : Type) := Except ClassFileParsingError α

/-- Modelled from the spec: the byte reader performs big-endian primitive
reads over a sequential byte source (src/utils is not in the sources); a
read past the end of the source is an underlying-source failure, surfaced
as ReadFail. Bytes are modelled as a list of Nat with a cursor position. -/
def read_u8 (bytes : List Nat) (pos : Nat) : PResult (Nat × Nat) :=
  match bytes.get? pos with
  | some b => .ok (b, pos + 1)
  | none => .error .readFail

/-- Modelled from the spec: big-endian two-byte unsigned read. -/
def read_u16 (bytes : List Nat) (pos : Nat) : PResult (Nat × Nat) := do
  let (b0, p0) ← read_u8 bytes pos
  let (b1, p1) ← read_u8 bytes p0
  .ok (b0 * 256 + b1, p1)

/-- Modelled from the spec: big-endian four-byte unsigned read. -/
def read_u32 (bytes : List Nat) (pos : Nat) : PResult (Nat × Nat) := do
  let (b0, p0) ← read_u8 bytes pos
  let (b1, p1) ← read_u8 bytes p0
  let (b2, p2) ← read_u8 bytes p1
  let (b3, p3) ← read_u8 bytes p2
  .ok (((b0 * 256 + b1) * 256 + b2) * 256 + b3, p3)

/-- Two's-complement reinterpretation of a w-bit unsigned value. -/
def toSigned (w : Nat) (n : Nat) : Int :=
  if n < 2 ^ (w - 1) then (n : Int) else (n : Int) - 2 ^ w

/-- Modelled from the spec: signed one-byte read. -/
def read_i8 (bytes : List Nat) (pos : Nat) : PResult (Int × Nat) := do
  let (b, p) ← read_u8 bytes pos
  .ok (toSigned 8 b, p)

/-- Modelled from the spec: big-endian signed two-byte read. -/
def read_i16 (bytes : List Nat) (pos : Nat) : PResult (Int × Nat) := do
  let (b, p) ← read_u16 bytes pos
  .ok (toSigned 16 b, p)

/-- Modelled from the spec: big-endian signed four-byte read. -/
def read_i32 (bytes : List Nat) (pos : Nat) : PResult (Int × Nat) := do
  let (b, p) ← read_u32 bytes pos
  .ok (toSigned 32 b, p)

/-- A reference to a class in the binary format, from src/elements/references.rs. -/
structure ClassReference where
  binary_name : String
  deriving DecidableEq

/-- A structured field type descriptor. The descriptor grammar lives in a
file that is not in the sources; the claims never inspect it, so the parsed
type is carried as its raw descriptor text. -/
structure FieldType where
  raw : String
  deriving DecidableEq

/-- A parsed method descriptor; as for FieldType, carried as raw text. -/
structure MethodDescriptor where
  raw : String
  deriving DecidableEq

/-- A reference to a field, from src/elements/references.rs (the field named
class in the source is class_ref here, class being reserved in Lean). -/
structure FieldReference where
  class_ref : ClassReference
  name : String
  field_type : FieldType
  deriving DecidableEq

/-- A reference to an interface method, from src/elements/references.rs. -/
structure InterfaceMethodReference where
  interface : ClassReference
  name : String
  descriptor : MethodDescriptor
  deriving DecidableEq

/-- A reference to a class method, from src/elements/references.rs. -/
structure ClassMethodReference where
  class_ref : ClassReference
  name : String
  descriptor : MethodDescriptor
  deriving DecidableEq

/-- Method reference: class or interface variant, from src/elements/references.rs. -/
inductive MethodReference where
  | Class : ClassMethodReference → MethodReference
  | Interface : InterfaceMethodReference → MethodReference
  deriving DecidableEq

/-- Modelled from the spec: Java strings are modified UTF-8 and decode to a
validated string or a raw invalid-UTF-8 byte form. -/
inductive JavaString where
  | ValidUtf8 : String → JavaString
  | InvalidUtf8 : List Nat → JavaString
  deriving DecidableEq

/-- Modelled from the spec: constant values resolvable from the pool
(Integer, Float, Long, Double, String, loadable Class); Float and Double
carry their raw bit patterns, no floating-point semantics being needed. -/
inductive ConstantValue where
  | Integer : Int → ConstantValue
  | Float : Nat → ConstantValue
  | Long : Int → ConstantValue
  | Double : Nat → ConstantValue
  | String : JavaString → ConstantValue
  | ClassObj : ClassReference → ConstantValue
  deriving DecidableEq

/-- Modelled from the spec: a MethodHandle pool resolution result carrying
its kind and reference index (never inspected by the claims). -/
structure MethodHandle where
  kind : Nat
  reference_idx : Nat
  deriving DecidableEq

/-- Primitive types, the newarray menu {Boolean, Char, Float, Double, Byte,
Short, Int, Long}; the defining file is not in the sources. -/
inductive PrimitiveType where
  | Boolean : PrimitiveType
  | Char : PrimitiveType
  | Float : PrimitiveType
  | Double : PrimitiveType
  | Byte : PrimitiveType
  | Short : PrimitiveType
  | Int : PrimitiveType
  | Long : PrimitiveType
  deriving DecidableEq

/-- Modelled from the spec: the constant pool is a flat 1-indexed table of
tagged entries (Utf8, Integer, Float, Long, Double, Class, String,
FieldRef, MethodRef, InterfaceMethodRef, NameAndType, MethodHandle,
MethodType, Dynamic, InvokeDynamic, Module, Package) holding raw indices;
phantom marks the unusable slot after a Long or Double. -/
inductive PoolEntry where
  | utf8 : String → PoolEntry
  | integer : Int → PoolEntry
  | float : Nat → PoolEntry
  | long : Int → PoolEntry
  | double : Nat → PoolEntry
  | classInfo : Nat → PoolEntry
  | stringInfo : Nat → PoolEntry
  | fieldRefInfo : Nat → Nat → PoolEntry
  | methodRefInfo : Nat → Nat → PoolEntry
  | interfaceMethodRefInfo : Nat → Nat → PoolEntry
  | nameAndTypeInfo : Nat → Nat → PoolEntry
  | methodHandleInfo : Nat → Nat → PoolEntry
  | methodTypeInfo : Nat → PoolEntry
  | dynamicInfo : Nat → Nat → PoolEntry
  | invokeDynamicInfo : Nat → Nat → PoolEntry
  | moduleInfo : Nat → PoolEntry
  | packageInfo : Nat → PoolEntry
  | phantom : PoolEntry
  deriving DecidableEq

/-- The parsed constant pool table (1-indexed through pool_entry). -/
structure ConstantPool where
  entries : List PoolEntry
  deriving DecidableEq

/-- Modelled from the spec: the tag name of an entry, used in
MismatchedConstantPoolEntryType payloads. -/
def tag_name : PoolEntry → String
  | .utf8 _ => "Utf8"
  | .integer _ => "Integer"
  | .float _ => "Float"
  | .long _ => "Long"
  | .double _ => "Double"
  | .classInfo _ => "Class"
  | .stringInfo _ => "String"
  | .fieldRefInfo _ _ => "FieldRef"
  | .methodRefInfo _ _ => "MethodRef"
  | .interfaceMethodRefInfo _ _ => "InterfaceMethodRef"
  | .nameAndTypeInfo _ _ => "NameAndType"
  | .methodHandleInfo _ _ => "MethodHandle"
  | .methodTypeInfo _ => "MethodType"
  | .dynamicInfo _ _ => "Dynamic"
  | .invokeDynamicInfo _ _ => "InvokeDynamic"
  | .moduleInfo _ => "Module"
  | .packageInfo _ => "Package"
  | .phantom => "Phantom"

/-- Modelled from the spec: indices are in 1..=count; out-of-range indices
fail BadConstantPoolIndex. -/
def pool_entry (cp : ConstantPool) (index : Nat) : PResult PoolEntry :=
  if index = 0 then .error (.badConstantPoolIndex index)
  else
    match cp.entries.get? (index - 1) with
    | some e => .ok e
    | none => .error (.badConstantPoolIndex index)

/-- Modelled from the spec: get_str resolves a Utf8 entry to its string; a
tag mismatch fails MismatchedConstantPoolEntryType. -/
def get_str (cp : ConstantPool) (index : Nat) : PResult String := do
  match ← pool_entry cp index with
  | .utf8 s => .ok s
  | e => .error (.mismatchedConstantPoolEntryType ("Utf8") (tag_name e))

/-- Modelled from the spec: the elements draft names the Utf8 resolver
get_string; same behavior as get_str. -/
def get_string (cp : ConstantPool) (index : Nat) : PResult String :=
  get_str cp index

/-- Modelled from the spec: resolve a Class entry to a ClassReference
owning its binary name. -/
def get_class_ref (cp : ConstantPool) (index : Nat) : PResult ClassReference := do
  match ← pool_entry cp index with
  | .classInfo name_idx => do
    let s ← get_str cp name_idx
    .ok { binary_name := s }
  | e => .error (.mismatchedConstantPoolEntryType ("Class") (tag_name e))

/-- Modelled from the spec: resolve a NameAndType entry to its name and
descriptor strings. -/
def get_name_and_type (cp : ConstantPool) (index : Nat) : PResult (String × String) := do
  match ← pool_entry cp index with
  | .nameAndTypeInfo name_idx desc_idx => do
    let n ← get_str cp name_idx
    let d ← get_str cp desc_idx
    .ok (n, d)
  | e => .error (.mismatchedConstantPoolEntryType ("NameAndType") (tag_name e))

/-- Modelled from the spec: resolve a FieldRef entry to a FieldReference. -/
def get_field_ref (cp : ConstantPool) (index : Nat) : PResult FieldReference := do
  match ← pool_entry cp index with
  | .fieldRefInfo class_idx nat_idx => do
    let c ← get_class_ref cp class_idx
    let (n, d) ← get_name_and_type cp nat_idx
    .ok { class_ref := c, name := n, field_type := { raw := d } }
  | e => .error (.mismatchedConstantPoolEntryType ("FieldRef") (tag_name e))

/-- Modelled from the spec: resolving a MethodRef returns the Class variant
for a MethodRef tag and the Interface variant for an InterfaceMethodRef
tag; any other tag is a mismatch. -/
def get_method_ref (cp : ConstantPool) (index : Nat) : PResult MethodReference := do
  match ← pool_entry cp index with
  | .methodRefInfo class_idx nat_idx => do
    let c ← get_class_ref cp class_idx
    let (n, d) ← get_name_and_type cp nat_idx
    .ok (.Class { class_ref := c, name := n, descriptor := { raw := d } })
  | .interfaceMethodRefInfo class_idx nat_idx => do
    let c ← get_class_ref cp class_idx
    let (n, d) ← get_name_and_type cp nat_idx
    .ok (.Interface { interface := c, name := n, descriptor := { raw := d } })
  | e => .error (.mismatchedConstantPoolEntryType ("MethodRef") (tag_name e))

/-- Modelled from the spec: resolve a MethodHandle entry; the handle keeps
its kind and reference index symbolically. -/
def get_method_handle (cp : ConstantPool) (index : Nat) : PResult MethodHandle := do
  match ← pool_entry cp index with
  | .methodHandleInfo kind ref_idx => .ok { kind := kind, reference_idx := ref_idx }
  | e => .error (.mismatchedConstantPoolEntryType ("MethodHandle") (tag_name e))

/-- Modelled from the spec: get_array_type_ref accepts Class entries whose
name begins with a left bracket and returns the parsed array type. -/
def get_array_type_ref (cp : ConstantPool) (index : Nat) : PResult FieldType := do
  match ← pool_entry cp index with
  | .classInfo name_idx => do
    let s ← get_str cp name_idx
    if s.startsWith ("[") then .ok { raw := s }
    else .error (.malformedClassFile ("Not an array type"))
  | e => .error (.mismatchedConstantPoolEntryType ("Class") (tag_name e))

/-- Modelled from the spec: get_constant_value resolves Integer, Float,
Long, Double, String and loadable Class entries; other tags mismatch. -/
def get_constant_value (cp : ConstantPool) (index : Nat) : PResult ConstantValue := do
  match ← pool_entry cp index with
  | .integer v => .ok (.Integer v)
  | .float bits => .ok (.Float bits)
  | .long v => .ok (.Long v)
  | .double bits => .ok (.Double bits)
  | .stringInfo utf8_idx => do
    let s ← get_str cp utf8_idx
    .ok (.String (.ValidUtf8 s))
  | .classInfo name_idx => do
    let s ← get_str cp name_idx
    .ok (.ClassObj { binary_name := s })
  | e => .error (.mismatchedConstantPoolEntryType ("ConstantValue") (tag_name e))

/-- The instruction taxonomy, one case per opcode recognized by
Instruction::parse in src/elements/parsing/code/instruction_impl.rs;
resolved operands carry structured references and constant values. -/
inductive Instruction where
  | AALoad : Instruction
  | AAStore : Instruction
  | AConstNull : Instruction
  | ALoad : Nat → Instruction
  | ALoad0 : Instruction
  | ALoad1 : Instruction
  | ALoad2 : Instruction
  | ALoad3 : Instruction
  | AReturn : Instruction
  | ArrayLength : Instruction
  | AStore : Nat → Instruction
  | AStore0 : Instruction
  | AStore1 : Instruction
  | AStore2 : Instruction
  | AStore3 : Instruction
  | AThrow : Instruction
  | BALoad : Instruction
  | BAStore : Instruction
  | BiPush : Nat → Instruction
  | CALoad : Instruction
  | CAStore : Instruction
  | CheckCast : Nat → Instruction
  | D2F : Instruction
  | D2I : Instruction
  | D2L : Instruction
  | DAdd : Instruction
  | DALoad : Instruction
  | DAStore : Instruction
  | DCmpG : Instruction
  | DCmpL : Instruction
  | DConst0 : Instruction
  | DConst1 : Instruction
  | DDiv : Instruction
  | DLoad : Nat → Instruction
  | DLoad0 : Instruction
  | DLoad1 : Instruction
  | DLoad2 : Instruction
  | DLoad3 : Instruction
  | DMul : Instruction
  | DNeg : Instruction
  | DRem : Instruction
  | DReturn : Instruction
  | DStore : Nat → Instruction
  | DStore0 : Instruction
  | DStore1 : Instruction
  | DStore2 : Instruction
  | DStore3 : Instruction
  | DSub : Instruction
  | Dup : Instruction
  | DupX1 : Instruction
  | DupX2 : Instruction
  | Dup2 : Instruction
  | Dup2X1 : Instruction
  | Dup2X2 : Instruction
  | F2D : Instruction
  | F2I : Instruction
  | F2L : Instruction
  | FAdd : Instruction
  | FALoad : Instruction
  | FAStore : Instruction
  | FCmpG : Instruction
  | FCmpL : Instruction
  | FConst0 : Instruction
  | FConst1 : Instruction
  | FConst2 : Instruction
  | FDiv : Instruction
  | FLoad : Nat → Instruction
  | FLoad0 : Instruction
  | FLoad1 : Instruction
  | FLoad2 : Instruction
  | FLoad3 : Instruction
  | FMul : Instruction
  | FNeg : Instruction
  | FRem : Instruction
  | FReturn : Instruction
  | FStore : Nat → Instruction
  | FStore0 : Instruction
  | FStore1 : Instruction
  | FStore2 : Instruction
  | FStore3 : Instruction
  | FSub : Instruction
  | GotoW : Int → Instruction
  | I2B : Instruction
  | I2C : Instruction
  | I2D : Instruction
  | I2F : Instruction
  | I2L : Instruction
  | I2S : Instruction
  | IAdd : Instruction
  | IALoad : Instruction
  | IAnd : Instruction
  | IAStore : Instruction
  | IConstM1 : Instruction
  | IConst0 : Instruction
  | IConst1 : Instruction
  | IConst2 : Instruction
  | IConst3 : Instruction
  | IConst4 : Instruction
  | IConst5 : Instruction
  | IDiv : Instruction
  | IfACmpEq : Int → Instruction
  | IfACmpNe : Int → Instruction
  | IfICmpEq : Int → Instruction
  | IfICmpNe : Int → Instruction
  | IfICmpLt : Int → Instruction
  | IfICmpGe : Int → Instruction
  | IfICmpGt : Int → Instruction
  | IfICmpLe : Int → Instruction
  | IfEq : Int → Instruction
  | IfNe : Int → Instruction
  | IfLt : Int → Instruction
  | IfGe : Int → Instruction
  | IfGt : Int → Instruction
  | IfLe : Int → Instruction
  | IfNonNull : Int → Instruction
  | IfNull : Int → Instruction
  | IInc : Nat → Int → Instruction
  | ILoad : Nat → Instruction
  | ILoad0 : Instruction
  | ILoad1 : Instruction
  | ILoad2 : Instruction
  | ILoad3 : Instruction
  | IMul : Instruction
  | INeg : Instruction
  | InstanceOf : Nat → Instruction
  | IOr : Instruction
  | IRem : Instruction
  | IReturn : Instruction
  | IShl : Instruction
  | IShr : Instruction
  | IStore : Nat → Instruction
  | IStore0 : Instruction
  | IStore1 : Instruction
  | IStore2 : Instruction
  | IStore3 : Instruction
  | ISub : Instruction
  | IUShr : Instruction
  | IXor : Instruction
  | Jsr : Int → Instruction
  | JsrW : Int → Instruction
  | L2D : Instruction
  | L2F : Instruction
  | L2I : Instruction
  | LAdd : Instruction
  | LALoad : Instruction
  | LAnd : Instruction
  | LAStore : Instruction
  | LCmp : Instruction
  | LConst0 : Instruction
  | LConst1 : Instruction
  | LDiv : Instruction
  | LLoad : Nat → Instruction
  | LLoad0 : Instruction
  | LLoad1 : Instruction
  | LLoad2 : Instruction
  | LLoad3 : Instruction
  | LMul : Instruction
  | LNeg : Instruction
  | LOr : Instruction
  | LRem : Instruction
  | LReturn : Instruction
  | LShl : Instruction
  | LShr : Instruction
  | LStore : Nat → Instruction
  | LStore0 : Instruction
  | LStore1 : Instruction
  | LStore2 : Instruction
  | LStore3 : Instruction
  | LSub : Instruction
  | LUShr : Instruction
  | LXor : Instruction
  | MonitorEnter : Instruction
  | MonitorExit : Instruction
  | Nop : Instruction
  | Pop : Instruction
  | Pop2 : Instruction
  | Ret : Nat → Instruction
  | Return : Instruction
  | SALoad : Instruction
  | SAStore : Instruction
  | SiPush : Nat → Instruction
  | Swap : Instruction
  | ANewArray : FieldType → Instruction
  | GetField : FieldReference → Instruction
  | GetStatic : FieldReference → Instruction
  | InvokeDynamic : MethodHandle → Instruction
  | InvokeInterface : InterfaceMethodReference → Nat → Instruction
  | InvokeSpecial : MethodReference → Instruction
  | InvokeStatic : MethodReference → Instruction
  | InvokeVirtual : MethodReference → Instruction
  | Ldc : ConstantValue → Instruction
  | LdcW : ConstantValue → Instruction
  | Ldc2W : ConstantValue → Instruction
  | LookupSwitch : Int → List (Int × Int) → Instruction
  | TableSwitch : Int → Int → Int → List Int → Instruction
  | MultiANewArray : FieldType → Nat → Instruction
  | New : ClassReference → Instruction
  | NewArray : PrimitiveType → Instruction
  | PutField : FieldReference → Instruction
  | PutStatic : FieldReference → Instruction
  | WideILoad : Nat → Instruction
  | WideLLoad : Nat → Instruction
  | WideFLoad : Nat → Instruction
  | WideDLoad : Nat → Instruction
  | WideALoad : Nat → Instruction
  | WideIStore : Nat → Instruction
  | WideLStore : Nat → Instruction
  | WideFStore : Nat → Instruction
  | WideDStore : Nat → Instruction
  | WideAStore : Nat → Instruction
  | WideRet : Nat → Instruction
  | WideIInc : Nat → Int → Instruction

/-- The switch-padding loop of Instruction::parse: consume one byte at a
time while the cursor position is not 4-byte aligned relative to the start
of the code array; the counter is the exact number of padding bytes. -/
def skipPaddingAux (bytes : List Nat) : Nat → Nat → PResult Nat
  | 0, pos => .ok pos
  | k + 1, pos =>
    match bytes.get? pos with
    | none => .error .readFail
    | some _ => skipPaddingAux bytes k (pos + 1)

/-- Alignment skip: the loop above runs once per byte before the next
4-byte boundary. -/
def skipPadding (bytes : List Nat) (pos : Nat) : PResult Nat :=
  skipPaddingAux bytes ((4 - pos % 4) % 4) pos

/-- The lookupswitch pair-reading loop of Instruction::parse. -/
def readMatchOffsets (bytes : List Nat) : Nat → Nat → PResult (List (Int × Int) × Nat)
  | 0, pos => .ok ([], pos)
  | n + 1, pos => do
    let (match_value, p1) ← read_i32 bytes pos
    let (offset, p2) ← read_i32 bytes p1
    let (rest, p3) ← readMatchOffsets bytes n p2
    .ok ((match_value, offset) :: rest, p3)

/-- The tableswitch offset-reading loop of Instruction::parse. -/
def readJumpOffsets (bytes : List Nat) : Nat → Nat → PResult (List Int × Nat)
  | 0, pos => .ok ([], pos)
  | n + 1, pos => do
    let (offset, p1) ← read_i32 bytes pos
    let (rest, p2) ← readJumpOffsets bytes n p1
    .ok (offset :: rest, p2)

/-- The opcode dispatch of Instruction::parse
(src/elements/parsing/code/instruction_impl.rs, lines 43-400): pos is the
cursor position just after the opcode byte, counted from the start of the
code array. -/
def Instruction.parseOp (cp : ConstantPool) (bytes : List Nat) (opcode : Nat) (pos : Nat) :
    PResult (Instruction × Nat) :=
  match opcode with
  | 0x32 => .ok (.AALoad, pos)
  | 0x53 => .ok (.AAStore, pos)
  | 0x01 => .ok (.AConstNull, pos)
  | 0x19 => do
    let (a, p1) ← read_u8 bytes pos
    .ok (.ALoad a, p1)
  | 0x2a => .ok (.ALoad0, pos)
  | 0x2b => .ok (.ALoad1, pos)
  | 0x2c => .ok (.ALoad2, pos)
  | 0x2d => .ok (.ALoad3, pos)
  | 0xb0 => .ok (.AReturn, pos)
  | 0xbe => .ok (.ArrayLength, pos)
  | 0x3a => do
    let (a, p1) ← read_u8 bytes pos
    .ok (.AStore a, p1)
  | 0x4b => .ok (.AStore0, pos)
  | 0x4c => .ok (.AStore1, pos)
  | 0x4d => .ok (.AStore2, pos)
  | 0x4e => .ok (.AStore3, pos)
  | 0xbf => .ok (.AThrow, pos)
  | 0x33 => .ok (.BALoad, pos)
  | 0x54 => .ok (.BAStore, pos)
  | 0x10 => do
    let (a, p1) ← read_u8 bytes pos
    .ok (.BiPush a, p1)
  | 0x34 => .ok (.CALoad, pos)
  | 0x55 => .ok (.CAStore, pos)
  | 0xc0 => do
    let (a, p1) ← read_u16 bytes pos
    .ok (.CheckCast a, p1)
  | 0x90 => .ok (.D2F, pos)
  | 0x8e => .ok (.D2I, pos)
  | 0x8f => .ok (.D2L, pos)
  | 0x63 => .ok (.DAdd, pos)
  | 0x31 => .ok (.DALoad, pos)
  | 0x52 => .ok (.DAStore, pos)
  | 0x98 => .ok (.DCmpG, pos)
  | 0x97 => .ok (.DCmpL, pos)
  | 0x0e => .ok (.DConst0, pos)
  | 0x0f => .ok (.DConst1, pos)
  | 0x6f => .ok (.DDiv, pos)
  | 0x18 => do
    let (a, p1) ← read_u8 bytes pos
    .ok (.DLoad a, p1)
  | 0x26 => .ok (.DLoad0, pos)
  | 0x27 => .ok (.DLoad1, pos)
  | 0x28 => .ok (.DLoad2, pos)
  | 0x29 => .ok (.DLoad3, pos)
  | 0x6b => .ok (.DMul, pos)
  | 0x77 => .ok (.DNeg, pos)
  | 0x73 => .ok (.DRem, pos)
  | 0xaf => .ok (.DReturn, pos)
  | 0x39 => do
    let (a, p1) ← read_u8 bytes pos
    .ok (.DStore a, p1)
  | 0x47 => .ok (.DStore0, pos)
  | 0x48 => .ok (.DStore1, pos)
  | 0x49 => .ok (.DStore2, pos)
  | 0x4a => .ok (.DStore3, pos)
  | 0x67 => .ok (.DSub, pos)
  | 0x59 => .ok (.Dup, pos)
  | 0x5a => .ok (.DupX1, pos)
  | 0x5b => .ok (.DupX2, pos)
  | 0x5c => .ok (.Dup2, pos)
  | 0x5d => .ok (.Dup2X1, pos)
  | 0x5e => .ok (.Dup2X2, pos)
  | 0x8d => .ok (.F2D, pos)
  | 0x8b => .ok (.F2I, pos)
  | 0x8c => .ok (.F2L, pos)
  | 0x62 => .ok (.FAdd, pos)
  | 0x30 => .ok (.FALoad, pos)
  | 0x51 => .ok (.FAStore, pos)
  | 0x96 => .ok (.FCmpG, pos)
  | 0x95 => .ok (.FCmpL, pos)
  | 0x0b => .ok (.FConst0, pos)
  | 0x0c => .ok (.FConst1, pos)
  | 0x0d => .ok (.FConst2, pos)
  | 0x6e => .ok (.FDiv, pos)
  | 0x17 => do
    let (a, p1) ← read_u8 bytes pos
    .ok (.FLoad a, p1)
  | 0x22 => .ok (.FLoad0, pos)
  | 0x23 => .ok (.FLoad1, pos)
  | 0x24 => .ok (.FLoad2, pos)
  | 0x25 => .ok (.FLoad3, pos)
  | 0x6a => .ok (.FMul, pos)
  | 0x76 => .ok (.FNeg, pos)
  | 0x72 => .ok (.FRem, pos)
  | 0xae => .ok (.FReturn, pos)
  | 0x38 => do
    let (a, p1) ← read_u8 bytes pos
    .ok (.FStore a, p1)
  | 0x43 => .ok (.FStore0, pos)
  | 0x44 => .ok (.FStore1, pos)
  | 0x45 => .ok (.FStore2, pos)
  | 0x46 => .ok (.FStore3, pos)
  | 0x66 => .ok (.FSub, pos)
  | 0xc8 => do
    let (a, p1) ← read_i32 bytes pos
    .ok (.GotoW a, p1)
  | 0x91 => .ok (.I2B, pos)
  | 0x92 => .ok (.I2C, pos)
  | 0x87 => .ok (.I2D, pos)
  | 0x86 => .ok (.I2F, pos)
  | 0x85 => .ok (.I2L, pos)
  | 0x93 => .ok (.I2S, pos)
  | 0x60 => .ok (.IAdd, pos)
  | 0x2e => .ok (.IALoad, pos)
  | 0x7e => .ok (.IAnd, pos)
  | 0x4f => .ok (.IAStore, pos)
  | 0x02 => .ok (.IConstM1, pos)
  | 0x03 => .ok (.IConst0, pos)
  | 0x04 => .ok (.IConst1, pos)
  | 0x05 => .ok (.IConst2, pos)
  | 0x06 => .ok (.IConst3, pos)
  | 0x07 => .ok (.IConst4, pos)
  | 0x08 => .ok (.IConst5, pos)
  | 0x6c => .ok (.IDiv, pos)
  | 0xa5 => do
    let (a, p1) ← read_i16 bytes pos
    .ok (.IfACmpEq a, p1)
  | 0xa6 => do
    let (a, p1) ← read_i16 bytes pos
    .ok (.IfACmpNe a, p1)
  | 0x9f => do
    let (a, p1) ← read_i16 bytes pos
    .ok (.IfICmpEq a, p1)
  | 0xa0 => do
    let (a, p1) ← read_i16 bytes pos
    .ok (.IfICmpNe a, p1)
  | 0xa1 => do
    let (a, p1) ← read_i16 bytes pos
    .ok (.IfICmpLt a, p1)
  | 0xa2 => do
    let (a, p1) ← read_i16 bytes pos
    .ok (.IfICmpGe a, p1)
  | 0xa3 => do
    let (a, p1) ← read_i16 bytes pos
    .ok (.IfICmpGt a, p1)
  | 0xa4 => do
    let (a, p1) ← read_i16 bytes pos
    .ok (.IfICmpLe a, p1)
  | 0x99 => do
    let (a, p1) ← read_i16 bytes pos
    .ok (.IfEq a, p1)
  | 0x9a => do
    let (a, p1) ← read_i16 bytes pos
    .ok (.IfNe a, p1)
  | 0x9b => do
    let (a, p1) ← read_i16 bytes pos
    .ok (.IfLt a, p1)
  | 0x9c => do
    let (a, p1) ← read_i16 bytes pos
    .ok (.IfGe a, p1)
  | 0x9d => do
    let (a, p1) ← read_i16 bytes pos
    .ok (.IfGt a, p1)
  | 0x9e => do
    let (a, p1) ← read_i16 bytes pos
    .ok (.IfLe a, p1)
  | 0xc7 => do
    let (a, p1) ← read_i16 bytes pos
    .ok (.IfNonNull a, p1)
  | 0xc6 => do
    let (a, p1) ← read_i16 bytes pos
    .ok (.IfNull a, p1)
  | 0x84 => do
    let (a, p1) ← read_u8 bytes pos
    let (b, p2) ← read_i8 bytes p1
    .ok (.IInc a b, p2)
  | 0x15 => do
    let (a, p1) ← read_u8 bytes pos
    .ok (.ILoad a, p1)
  | 0x1a => .ok (.ILoad0, pos)
  | 0x1b => .ok (.ILoad1, pos)
  | 0x1c => .ok (.ILoad2, pos)
  | 0x1d => .ok (.ILoad3, pos)
  | 0x68 => .ok (.IMul, pos)
  | 0x74 => .ok (.INeg, pos)
  | 0xc1 => do
    let (a, p1) ← read_u16 bytes pos
    .ok (.InstanceOf a, p1)
  | 0x80 => .ok (.IOr, pos)
  | 0x70 => .ok (.IRem, pos)
  | 0xac => .ok (.IReturn, pos)
  | 0x78 => .ok (.IShl, pos)
  | 0x7a => .ok (.IShr, pos)
  | 0x36 => do
    let (a, p1) ← read_u8 bytes pos
    .ok (.IStore a, p1)
  | 0x3b => .ok (.IStore0, pos)
  | 0x3c => .ok (.IStore1, pos)
  | 0x3d => .ok (.IStore2, pos)
  | 0x3e => .ok (.IStore3, pos)
  | 0x64 => .ok (.ISub, pos)
  | 0x7c => .ok (.IUShr, pos)
  | 0x82 => .ok (.IXor, pos)
  | 0xa8 => do
    let (a, p1) ← read_i16 bytes pos
    .ok (.Jsr a, p1)
  | 0xc9 => do
    let (a, p1) ← read_i32 bytes pos
    .ok (.JsrW a, p1)
  | 0x8a => .ok (.L2D, pos)
  | 0x89 => .ok (.L2F, pos)
  | 0x88 => .ok (.L2I, pos)
  | 0x61 => .ok (.LAdd, pos)
  | 0x2f => .ok (.LALoad, pos)
  | 0x7f => .ok (.LAnd, pos)
  | 0x50 => .ok (.LAStore, pos)
  | 0x94 => .ok (.LCmp, pos)
  | 0x09 => .ok (.LConst0, pos)
  | 0x0a => .ok (.LConst1, pos)
  | 0x6d => .ok (.LDiv, pos)
  | 0x16 => do
    let (a, p1) ← read_u8 bytes pos
    .ok (.LLoad a, p1)
  | 0x1e => .ok (.LLoad0, pos)
  | 0x1f => .ok (.LLoad1, pos)
  | 0x20 => .ok (.LLoad2, pos)
  | 0x21 => .ok (.LLoad3, pos)
  | 0x69 => .ok (.LMul, pos)
  | 0x75 => .ok (.LNeg, pos)
  | 0x81 => .ok (.LOr, pos)
  | 0x71 => .ok (.LRem, pos)
  | 0xad => .ok (.LReturn, pos)
  | 0x79 => .ok (.LShl, pos)
  | 0x7b => .ok (.LShr, pos)
  | 0x37 => do
    let (a, p1) ← read_u8 bytes pos
    .ok (.LStore a, p1)
  | 0x3f => .ok (.LStore0, pos)
  | 0x40 => .ok (.LStore1, pos)
  | 0x41 => .ok (.LStore2, pos)
  | 0x42 => .ok (.LStore3, pos)
  | 0x65 => .ok (.LSub, pos)
  | 0x7d => .ok (.LUShr, pos)
  | 0x83 => .ok (.LXor, pos)
  | 0xc2 => .ok (.MonitorEnter, pos)
  | 0xc3 => .ok (.MonitorExit, pos)
  | 0x00 => .ok (.Nop, pos)
  | 0x57 => .ok (.Pop, pos)
  | 0x58 => .ok (.Pop2, pos)
  | 0xa9 => do
    let (a, p1) ← read_u8 bytes pos
    .ok (.Ret a, p1)
  | 0xb1 => .ok (.Return, pos)
  | 0x35 => .ok (.SALoad, pos)
  | 0x56 => .ok (.SAStore, pos)
  | 0x11 => do
    let (a, p1) ← read_u16 bytes pos
    .ok (.SiPush a, p1)
  | 0x5f => .ok (.Swap, pos)
  | 0xbd => do
    let (index, p1) ← read_u16 bytes pos
    let array_type ← get_array_type_ref cp index
    .ok (.ANewArray array_type, p1)
  | 0xb4 => do
    let (index, p1) ← read_u16 bytes pos
    let field ← get_field_ref cp index
    .ok (.GetField field, p1)
  | 0xb2 => do
    let (index, p1) ← read_u16 bytes pos
    let field ← get_field_ref cp index
    .ok (.GetStatic field, p1)
  | 0xba => do
    let (index, p1) ← read_u16 bytes pos
    let method_handle ← get_method_handle cp index
    let (zeros, p2) ← read_u16 bytes p1
    if zeros ≠ 0 then .error (.malformedClassFile (""))
    else .ok (.InvokeDynamic method_handle, p2)
  | 0xb9 => do
    let (index, p1) ← read_u16 bytes pos
    match ← get_method_ref cp index with
    | .Interface method_ref => do
      let (count, p2) ← read_u8 bytes p1
      let (zbyte, p3) ← read_u8 bytes p2
      if zbyte ≠ 0 then .error (.malformedClassFile (""))
      else .ok (.InvokeInterface method_ref count, p3)
    | .Class _ => .error (.malformedClassFile (""))
  | 0xb7 => do
    let (index, p1) ← read_u16 bytes pos
    let method_ref ← get_method_ref cp index
    .ok (.InvokeSpecial method_ref, p1)
  | 0xb8 => do
    let (index, p1) ← read_u16 bytes pos
    let method_ref ← get_method_ref cp index
    .ok (.InvokeStatic method_ref, p1)
  | 0xb6 => do
    let (index, p1) ← read_u16 bytes pos
    let method_ref ← get_method_ref cp index
    .ok (.InvokeVirtual method_ref, p1)
  | 0x12 => do
    let (index, p1) ← read_u8 bytes pos
    match ← get_constant_value cp index with
    | .Long _ => .error (.malformedClassFile (""))
    | .Double _ => .error (.malformedClassFile (""))
    | it => .ok (.Ldc it, p1)
  | 0x13 => do
    let (index, p1) ← read_u16 bytes pos
    match ← get_constant_value cp index with
    | .Long _ => .error (.malformedClassFile (""))
    | .Double _ => .error (.malformedClassFile (""))
    | it => .ok (.LdcW it, p1)
  | 0x14 => do
    let (index, p1) ← read_u16 bytes pos
    match ← get_constant_value cp index with
    | .Long v => .ok (.Ldc2W (.Long v), p1)
    | .Double v => .ok (.Ldc2W (.Double v), p1)
    | _ => .error (.malformedClassFile (""))
  | 0xab => do
    let p0 ← skipPadding bytes pos
    let (dflt, p1) ← read_i32 bytes p0
    let (npairs, p2) ← read_i32 bytes p1
    let (match_offsets, p3) ← readMatchOffsets bytes npairs.toNat p2
    .ok (.LookupSwitch dflt match_offsets, p3)
  | 0xaa => do
    let p0 ← skipPadding bytes pos
    let (dflt, p1) ← read_i32 bytes p0
    let (low, p2) ← read_i32 bytes p1
    let (high, p3) ← read_i32 bytes p2
    let offset_count := high - low + 1
    let (jump_offsets, p4) ← readJumpOffsets bytes offset_count.toNat p3
    .ok (.TableSwitch dflt low high jump_offsets, p4)
  | 0xc5 => do
    let (index, p1) ← read_u16 bytes pos
    let array_type ← get_array_type_ref cp index
    let (dims, p2) ← read_u8 bytes p1
    .ok (.MultiANewArray array_type dims, p2)
  | 0xbb => do
    let (index, p1) ← read_u16 bytes pos
    let class_ref ← get_class_ref cp index
    .ok (.New class_ref, p1)
  | 0xbc => do
    let (type_id, p1) ← read_u8 bytes pos
    match type_id with
    | 4 => .ok (.NewArray .Boolean, p1)
    | 5 => .ok (.NewArray .Char, p1)
    | 6 => .ok (.NewArray .Float, p1)
    | 7 => .ok (.NewArray .Double, p1)
    | 8 => .ok (.NewArray .Byte, p1)
    | 9 => .ok (.NewArray .Short, p1)
    | 10 => .ok (.NewArray .Int, p1)
    | 11 => .ok (.NewArray .Long, p1)
    | _ => .error (.malformedClassFile (""))
  | 0xb5 => do
    let (index, p1) ← read_u16 bytes pos
    let field ← get_field_ref cp index
    .ok (.PutField field, p1)
  | 0xb3 => do
    let (index, p1) ← read_u16 bytes pos
    let field ← get_field_ref cp index
    .ok (.PutStatic field, p1)
  | 0xc4 => do
    let (wide_opcode, p1) ← read_u8 bytes pos
    match wide_opcode with
    | 0x15 => do
      let (o, p2) ← read_u16 bytes p1
      .ok (.WideILoad o, p2)
    | 0x16 => do
      let (o, p2) ← read_u16 bytes p1
      .ok (.WideLLoad o, p2)
    | 0x17 => do
      let (o, p2) ← read_u16 bytes p1
      .ok (.WideFLoad o, p2)
    | 0x18 => do
      let (o, p2) ← read_u16 bytes p1
      .ok (.WideDLoad o, p2)
    | 0x19 => do
      let (o, p2) ← read_u16 bytes p1
      .ok (.WideALoad o, p2)
    | 0x36 => do
      let (o, p2) ← read_u16 bytes p1
      .ok (.WideIStore o, p2)
    | 0x37 => do
      let (o, p2) ← read_u16 bytes p1
      .ok (.WideLStore o, p2)
    | 0x38 => do
      let (o, p2) ← read_u16 bytes p1
      .ok (.WideFStore o, p2)
    | 0x39 => do
      let (o, p2) ← read_u16 bytes p1
      .ok (.WideDStore o, p2)
    | 0x3a => do
      let (o, p2) ← read_u16 bytes p1
      .ok (.WideAStore o, p2)
    | 0xa9 => do
      let (o, p2) ← read_u16 bytes p1
      .ok (.WideRet o, p2)
    | 0x84 => do
      let (a, p2) ← read_u16 bytes p1
      let (b, p3) ← read_i16 bytes p2
      .ok (.WideIInc a b, p3)
    | _ => .error (.unexpectedOpCode wide_opcode)
  | _ => .error (.unexpectedOpCode opcode)

/-- Instruction::parse: end of input at an opcode boundary yields none;
otherwise the opcode byte is read and dispatched. -/
def Instruction.parse (cp : ConstantPool) (bytes : List Nat) (pos : Nat) :
    PResult (Option Instruction × Nat) :=
  match bytes.get? pos with
  | none => .ok (none, pos)
  | some opcode => do
    let (instruction, p) ← Instruction.parseOp cp bytes opcode (pos + 1)
    .ok (some instruction, p)

/-- The collection loop of Instruction::parse_code; the fuel argument only
bounds the iteration count and is unreachable when it starts above the
length of the byte list, every iteration consuming at least one byte. -/
def parseCodeAux (cp : ConstantPool) (bytes : List Nat) : Nat → Nat → PResult (List Instruction)
  | 0, _ => .error .readFail
  | fuel + 1, pos =>
    match Instruction.parse cp bytes pos with
    | .error e => .error e
    | .ok (none, _) => .ok []
    | .ok (some i, p) =>
      match parseCodeAux cp bytes fuel p with
      | .error e => .error e
      | .ok rest => .ok (i :: rest)

/-- Instruction::parse_code
(src/elements/parsing/code/instruction_impl.rs, lines 13-27): repeatedly
parse instructions from the start of the code bytes, collecting them in
stream order into a plain list. -/
def Instruction.parse_code (cp : ConstantPool) (bytes : List Nat) : PResult (List Instruction) :=
  parseCodeAux cp bytes (bytes.length + 1) 0

/-- Modelled from the spec: the instruction decoder is to produce an
ordered map pc to Instruction where pc is the byte offset of the opcode
from the start of code; this variant records that offset alongside each
decoded instruction. -/
def parseCodeWithPcsAux (cp : ConstantPool) (bytes : List Nat) :
    Nat → Nat → PResult (List (Nat × Instruction))
  | 0, _ => .error .readFail
  | fuel + 1, pos =>
    match Instruction.parse cp bytes pos with
    | .error e => .error e
    | .ok (none, _) => .ok []
    | .ok (some i, p) =>
      match parseCodeWithPcsAux cp bytes fuel p with
      | .error e => .error e
      | .ok rest => .ok ((pos, i) :: rest)

/-- Modelled from the spec: pc-keyed decoding of a code array. -/
def parseCodeWithPcs (cp : ConstantPool) (bytes : List Nat) : PResult (List (Nat × Instruction)) :=
  parseCodeWithPcsAux cp bytes (bytes.length + 1) 0

mutual

/-- Element values of the draft in src/elements/attributes/annotation.rs:
Constant, EnumConstant (type name, const name), Class (return descriptor
text), nested annotation, array. AnnotationA pairs a type descriptor text
with named element values. -/
inductive ElementValueA where
  | Constant : ConstantValue → ElementValueA
  | EnumConstant : String → String → ElementValueA
  | Class : String → ElementValueA
  | AnnotationInterface : AnnotationA → ElementValueA
  | Array : List ElementValueA → ElementValueA

/-- The annotation form of the elements draft. -/
inductive AnnotationA where
  | mk : String → List (String × ElementValueA) → AnnotationA

end

/-- Modelled from the spec: a parsed method return type; the descriptor
grammar is not the subject of any claim, so the text is kept raw and
from_str always succeeds. -/
structure ReturnType where
  raw : String
  deriving DecidableEq

/-- Modelled from the spec: ReturnType::from_str. -/
def ReturnType.from_str (s : String) : PResult ReturnType :=
  .ok { raw := s }

/-- Modelled from the spec: FieldType::from_str. -/
def FieldType.from_str (s : String) : PResult FieldType :=
  .ok { raw := s }

mutual

/-- Element values of the draft in src/jvm/parsing/annotation.rs. -/
inductive ElementValueB where
  | Constant : ConstantValue → ElementValueB
  | EnumConstant : String → String → ElementValueB
  | Class : ReturnType → ElementValueB
  | AnnotationInterface : AnnotationB → ElementValueB
  | Array : List ElementValueB → ElementValueB

/-- The annotation form of the jvm draft. -/
inductive AnnotationB where
  | mk : FieldType → List (String × ElementValueB) → AnnotationB

end

/-- The four mutually recursive parse operations of the elements draft
(element value, array elements, annotation, element-value pairs), built by
recursion on a fuel bound that every recursive call decreases; zero fuel
fails like an exhausted reader and is unreachable whenever the fuel
exceeds the input length, every call consuming input. -/
def evalA : Nat →
    (ConstantPool → List Nat → Nat → PResult (ElementValueA × Nat))
    × (ConstantPool → List Nat → Nat → Nat → PResult (List ElementValueA × Nat))
    × (ConstantPool → List Nat → Nat → PResult (AnnotationA × Nat))
    × (ConstantPool → List Nat → Nat → Nat → PResult (List (String × ElementValueA) × Nat))
  | 0 =>
    ( fun _ _ _ => .error .readFail
    , fun _ _ _ _ => .error .readFail
    , fun _ _ _ => .error .readFail
    , fun _ _ _ _ => .error .readFail )
  | fuel + 1 =>
    let prev := evalA fuel
    ( fun cp bytes pos => do
        let (tag, p1) ← read_u8 bytes pos
        let (const_value_index, p2) ← read_u16 bytes p1
        match tag with
        | 66 | 67 | 73 | 83 | 90 => do
          match ← get_constant_value cp const_value_index with
          | .Integer v => .ok (.Constant (.Integer v), p2)
          | _ => .error .midmatchedConstantPoolTag
        | 68 => do
          match ← get_constant_value cp const_value_index with
          | .Double v => .ok (.Constant (.Double v), p2)
          | _ => .error .midmatchedConstantPoolTag
        | 70 => do
          match ← get_constant_value cp const_value_index with
          | .Float v => .ok (.Constant (.Float v), p2)
          | _ => .error .midmatchedConstantPoolTag
        | 74 => do
          match ← get_constant_value cp const_value_index with
          | .Long v => .ok (.Constant (.Long v), p2)
          | _ => .error .midmatchedConstantPoolTag
        | 115 => do
          match ← get_constant_value cp const_value_index with
          | .String v => .ok (.Constant (.String v), p2)
          | _ => .error .midmatchedConstantPoolTag
        | 101 => do
          let (enum_type_idx, p3) ← read_u16 bytes p2
          let type_name ← get_string cp enum_type_idx
          let (const_name_idx, p4) ← read_u16 bytes p3
          let const_name ← get_string cp const_name_idx
          .ok (.EnumConstant type_name const_name, p4)
        | 99 => do
          let (class_info_idx, p3) ← read_u16 bytes p2
          let return_descriptor ← get_string cp class_info_idx
          .ok (.Class return_descriptor, p3)
        | 64 => do
          let (a, p3) ← prev.2.2.1 cp bytes p2
          .ok (.AnnotationInterface a, p3)
        | 91 => do
          let (num_values, p3) ← read_u16 bytes p2
          let (values, p4) ← prev.2.1 cp bytes num_values p3
          .ok (.Array values, p4)
        | _ => .error (.invalidElementValueTag tag)
    , fun cp bytes n pos =>
        match n with
        | 0 => .ok ([], pos)
        | n + 1 => do
          let (v, p1) ← prev.1 cp bytes pos
          let (rest, p2) ← prev.2.1 cp bytes n p1
          .ok (v :: rest, p2)
    , fun cp bytes pos => do
        let (type_idx, p1) ← read_u16 bytes pos
        let annotation_type_desc ← get_string cp type_idx
        let (num_element_value_pairs, p2) ← read_u16 bytes p1
        let (element_value_pairs, p3) ← prev.2.2.2 cp bytes num_element_value_pairs p2
        .ok (.mk annotation_type_desc element_value_pairs, p3)
    , fun cp bytes n pos =>
        match n with
        | 0 => .ok ([], pos)
        | n + 1 => do
          let (element_name_idx, p1) ← read_u16 bytes pos
          let element_name ← get_string cp element_name_idx
          let (v, p2) ← prev.1 cp bytes p1
          let (rest, p3) ← prev.2.2.2 cp bytes n p2
          .ok ((element_name, v) :: rest, p3) )

/-- ElementValue::parse of src/elements/attributes/annotation.rs
(lines 25-77): it reads the tag byte and then a two-byte constant index
UNCONDITIONALLY, before dispatching on the tag. Tags are byte values:
66 B, 67 C, 73 I, 83 S, 90 Z, 68 D, 70 F, 74 J, 115 s, 101 e, 99 c,
64 at-sign, 91 left bracket. -/
def parseElementValueA (fuel : Nat) : ConstantPool → List Nat → Nat → PResult (ElementValueA × Nat) :=
  (evalA fuel).1

/-- The array-element loop of the elements draft. -/
def parseElementValueListA (fuel : Nat) :
    ConstantPool → List Nat → Nat → Nat → PResult (List ElementValueA × Nat) :=
  (evalA fuel).2.1

/-- Annotation::parse of src/elements/attributes/annotation.rs. -/
def parseAnnotationA (fuel : Nat) : ConstantPool → List Nat → Nat → PResult (AnnotationA × Nat) :=
  (evalA fuel).2.2.1

/-- The element-value-pair loop of the elements draft. -/
def parsePairsA (fuel : Nat) :
    ConstantPool → List Nat → Nat → Nat → PResult (List (String × ElementValueA) × Nat) :=
  (evalA fuel).2.2.2

/-- The four mutually recursive parse operations of the jvm draft, built
like evalA by recursion on a fuel bound. -/
def evalB : Nat →
    (ConstantPool → List Nat → Nat → PResult (ElementValueB × Nat))
    × (ConstantPool → List Nat → Nat → Nat → PResult (List ElementValueB × Nat))
    × (ConstantPool → List Nat → Nat → PResult (AnnotationB × Nat))
    × (ConstantPool → List Nat → Nat → Nat → PResult (List (String × ElementValueB) × Nat))
  | 0 =>
    ( fun _ _ _ => .error .readFail
    , fun _ _ _ _ => .error .readFail
    , fun _ _ _ => .error .readFail
    , fun _ _ _ _ => .error .readFail )
  | fuel + 1 =>
    let prev := evalB fuel
    ( fun cp bytes pos => do
        let (tag, p1) ← read_u8 bytes pos
        match tag with
        | 66 | 67 | 73 | 83 | 90 | 68 | 70 | 74 => do
          let (const_value_index, p2) ← read_u16 bytes p1
          let const_value ← get_constant_value cp const_value_index
          match tag, const_value with
          | 66, .Integer _ | 67, .Integer _ | 73, .Integer _ | 83, .Integer _ | 90, .Integer _ =>
            .ok (.Constant const_value, p2)
          | 68, .Double _ => .ok (.Constant const_value, p2)
          | 70, .Float _ => .ok (.Constant const_value, p2)
          | 74, .Long _ => .ok (.Constant const_value, p2)
          | _, _ =>
            .error (.malformedClassFile
              ("Primitive element tag must point to primitive constant values"))
        | 115 => do
          let (utf8_idx, p2) ← read_u16 bytes p1
          let s ← get_str cp utf8_idx
          .ok (.Constant (.String (.ValidUtf8 s)), p2)
        | 101 => do
          let (enum_type_name_idx, p2) ← read_u16 bytes p1
          let enum_type ← get_str cp enum_type_name_idx
          let (const_name_idx, p3) ← read_u16 bytes p2
          let const_name ← get_str cp const_name_idx
          .ok (.EnumConstant enum_type const_name, p3)
        | 99 => do
          let (class_info_idx, p2) ← read_u16 bytes p1
          let return_descriptor_str ← get_str cp class_info_idx
          let return_descriptor ← ReturnType.from_str return_descriptor_str
          .ok (.Class return_descriptor, p2)
        | 64 => do
          let (a, p2) ← prev.2.2.1 cp bytes p1
          .ok (.AnnotationInterface a, p2)
        | 91 => do
          let (num_values, p2) ← read_u16 bytes p1
          let (values, p3) ← prev.2.1 cp bytes num_values p2
          .ok (.Array values, p3)
        | _ => .error (.invalidElementValueTag tag)
    , fun cp bytes n pos =>
        match n with
        | 0 => .ok ([], pos)
        | n + 1 => do
          let (v, p1) ← prev.1 cp bytes pos
          let (rest, p2) ← prev.2.1 cp bytes n p1
          .ok (v :: rest, p2)
    , fun cp bytes pos => do
        let (type_idx, p1) ← read_u16 bytes pos
        let annotation_type_str ← get_str cp type_idx
        let annotation_type ← FieldType.from_str annotation_type_str
        let (num_element_value_pairs, p2) ← read_u16 bytes p1
        let (element_value_pairs, p3) ← prev.2.2.2 cp bytes num_element_value_pairs p2
        .ok (.mk annotation_type element_value_pairs, p3)
    , fun cp bytes n pos =>
        match n with
        | 0 => .ok ([], pos)
        | n + 1 => do
          let (element_name_idx, p1) ← read_u16 bytes pos
          let element_name ← get_str cp element_name_idx
          let (v, p2) ← prev.1 cp bytes p1
          let (rest, p3) ← prev.2.2.2 cp bytes n p2
          .ok ((element_name, v) :: rest, p3) )

/-- ElementValue::parse of src/jvm/parsing/annotation.rs (lines 20-75): it
reads the tag byte and dispatches immediately; each arm reads only the
payload its tag prescribes. -/
def parseElementValueB (fuel : Nat) : ConstantPool → List Nat → Nat → PResult (ElementValueB × Nat) :=
  (evalB fuel).1

/-- The array-element loop of the jvm draft. -/
def parseElementValueListB (fuel : Nat) :
    ConstantPool → List Nat → Nat → Nat → PResult (List ElementValueB × Nat) :=
  (evalB fuel).2.1

/-- Annotation::parse of src/jvm/parsing/annotation.rs. -/
def parseAnnotationB (fuel : Nat) : ConstantPool → List Nat → Nat → PResult (AnnotationB × Nat) :=
  (evalB fuel).2.2.1

/-- The element-value-pair loop of the jvm draft. -/
def parsePairsB (fuel : Nat) :
    ConstantPool → List Nat → Nat → Nat → PResult (List (String × ElementValueB) × Nat) :=
  (evalB fuel).2.2.2

/-- Target info of a type annotation, from src/elements/attributes/annotation.rs. -/
inductive TargetInfoA where
  | TypeParameter : Nat → TargetInfoA
  | SuperType : Nat → TargetInfoA
  | TypeParameterBound : Nat → Nat → TargetInfoA
  | Empty : TargetInfoA
  | FormalParameter : Nat → TargetInfoA
  | Throws : Nat → TargetInfoA
  | LocalVar : List (Nat × Nat × Nat) → TargetInfoA
  | Catch : Nat → TargetInfoA
  | Offset : Nat → TargetInfoA
  | TypeArgument : Nat → Nat → TargetInfoA

/-- Type path kinds, from src/elements/attributes/annotation.rs. -/
inductive TypePathKindA where
  | Array : TypePathKindA
  | Nested : TypePathKindA
  | Bound : TypePathKindA
  | TypeArgument : TypePathKindA

/-- A type path element, from src/elements/attributes/annotation.rs. -/
structure TypePathElementA where
  kind : TypePathKindA
  argument_index : Nat

/-- A type annotation, from src/elements/attributes/annotation.rs. -/
structure TypeAnnotationA where
  target_info : TargetInfoA
  target_path : List TypePathElementA
  type_index : Nat
  element_value_pairs : List (String × ElementValueA)

/-- A line number table entry; its defining file is not in the sources,
fields per the JVMS form named by the spec. -/
structure LineNumberTableEntry where
  start_pc : Nat
  line_number : Nat
  deriving DecidableEq

/-- An exception table entry, fields per the spec (start_pc, end_pc,
handler_pc, optional catch class); the defining file is not in the
sources, but the shape is pinned by ExceptionTableEntry::parse in
src/elements/parsing/method_info.rs. -/
structure ExceptionTableEntry where
  start_pc : Nat
  end_pc : Nat
  handler_pc : Nat
  catch_type : Option ClassReference
  deriving DecidableEq

/-- A method parameter entry, per MethodParameters parsing in
src/elements/parsing/method_info.rs. -/
structure MethodParameter where
  name : String
  access_flags : Nat
  deriving DecidableEq

/-- Modelled from the spec: a local variable table; the merge of the
descriptor and type sub-tables is not the subject of any claim, so entries
are kept abstract as raw key tuples. -/
structure LocalVariableTable where
  entries : List (Nat × Nat × Nat)
  deriving DecidableEq

/-- A method body, fields per the spec's MethodBody data model (the
defining file is not in the sources); stack map frames are abbreviated to
their frame-type bytes, no claim inspecting them. -/
structure MethodBody where
  max_stack : Nat := 0
  max_locals : Nat := 0
  instructions : List Instruction := []
  exception_table : List ExceptionTableEntry := []
  line_number_table : Option (List LineNumberTableEntry) := none
  local_variable_table : Option LocalVariableTable := none
  stack_map_table : Option (List Nat) := none
  runtime_visible_type_annotations : List TypeAnnotationA := []
  runtime_invisible_type_annotations : List TypeAnnotationA := []

/-- The attribute taxonomy as dispatched by the drafts in the sources; the
payloads no claim inspects (StackMapTable, InnerClasses, EnclosingMethod,
SourceDebugExtension, BootstrapMethods, Module, ModulePackages, Record,
LocalVariableTable and LocalVariableTypeTable sub-attribute forms) are
abbreviated to index lists or pairs. -/
inductive Attribute where
  | ConstantValue : ConstantValue → Attribute
  | Code : MethodBody → Attribute
  | StackMapTable : List Nat → Attribute
  | Exceptions : List ClassReference → Attribute
  | InnerClasses : List Nat → Attribute
  | EnclosingMethod : Nat → Nat → Attribute
  | Synthetic : Attribute
  | Signature : String → Attribute
  | SourceFile : String → Attribute
  | SourceDebugExtension : List Nat → Attribute
  | LineNumberTable : List LineNumberTableEntry → Attribute
  | LocalVariableTable : List Nat → Attribute
  | LocalVariableTypeTable : List Nat → Attribute
  | Deprecated : Attribute
  | RuntimeVisibleAnnotations : List AnnotationA → Attribute
  | RuntimeInvisibleAnnotations : List AnnotationA → Attribute
  | RuntimeVisibleParameterAnnotations : List (List AnnotationA) → Attribute
  | RuntimeInvisibleParameterAnnotations : List (List AnnotationA) → Attribute
  | RuntimeVisibleTypeAnnotations : List TypeAnnotationA → Attribute
  | RuntimeInvisibleTypeAnnotations : List TypeAnnotationA → Attribute
  | AnnotationDefault : ElementValueA → Attribute
  | BootstrapMethods : List Nat → Attribute
  | MethodParameters : List MethodParameter → Attribute
  | Module : List Nat → Attribute
  | ModulePackages : List Nat → Attribute
  | ModuleMainClass : ClassReference → Attribute
  | NestHost : ClassReference → Attribute
  | NestMembers : List ClassReference → Attribute
  | Record : List Nat → Attribute
  | PermittedSubclasses : List ClassReference → Attribute

/-- Attribute::name, the case-sensitive JVMS attribute name. -/
def Attribute.name : Attribute → String
  | .ConstantValue _ => "ConstantValue"
  | .Code _ => "Code"
  | .StackMapTable _ => "StackMapTable"
  | .Exceptions _ => "Exceptions"
  | .InnerClasses _ => "InnerClasses"
  | .EnclosingMethod _ _ => "EnclosingMethod"
  | .Synthetic => "Synthetic"
  | .Signature _ => "Signature"
  | .SourceFile _ => "SourceFile"
  | .SourceDebugExtension _ => "SourceDebugExtension"
  | .LineNumberTable _ => "LineNumberTable"
  | .LocalVariableTable _ => "LocalVariableTable"
  | .LocalVariableTypeTable _ => "LocalVariableTypeTable"
  | .Deprecated => "Deprecated"
  | .RuntimeVisibleAnnotations _ => "RuntimeVisibleAnnotations"
  | .RuntimeInvisibleAnnotations _ => "RuntimeInvisibleAnnotations"
  | .RuntimeVisibleParameterAnnotations _ => "RuntimeVisibleParameterAnnotations"
  | .RuntimeInvisibleParameterAnnotations _ => "RuntimeInvisibleParameterAnnotations"
  | .RuntimeVisibleTypeAnnotations _ => "RuntimeVisibleTypeAnnotations"
  | .RuntimeInvisibleTypeAnnotations _ => "RuntimeInvisibleTypeAnnotations"
  | .AnnotationDefault _ => "AnnotationDefault"
  | .BootstrapMethods _ => "BootstrapMethods"
  | .MethodParameters _ => "MethodParameters"
  | .Module _ => "Module"
  | .ModulePackages _ => "ModulePackages"
  | .ModuleMainClass _ => "ModuleMainClass"
  | .NestHost _ => "NestHost"
  | .NestMembers _ => "NestMembers"
  | .Record _ => "Record"
  | .PermittedSubclasses _ => "PermittedSubclasses"

/-- Modelled from the spec: the crate's fill_once helper (its defining
file is not in the sources) fills an empty optional slot and fails
fatally on a second occurrence instead of overwriting. -/
def fillOnce {α : Type} (slot : Option α) (v : α) (what : String) : PResult (Option α) :=
  match slot with
  | some _ => .error (.malformedClassFile ("Duplicate " ++ what))
  | none => .ok (some v)

/-- CLASS_INITIALIZER_NAME from the method module (not in the sources;
value pinned by the spec's clinit special case). -/
def CLASS_INITIALIZER_NAME : String := "<clinit>"

/-- Modelled from the spec: JVMS method access flag bits for NATIVE and
ABSTRACT (the bitflags declaration is not in the sources). -/
def METHOD_ACC_NATIVE : Nat := 0x0100

/-- Modelled from the spec: the ABSTRACT method access bit. -/
def METHOD_ACC_ABSTRACT : Nat := 0x0400

/-- Modelled from the spec: the MODULE class access bit. -/
def CLASS_ACC_MODULE : Nat := 0x8000

/-- Bitset membership, as bitflags contains. -/
def flags_contain (flags bit : Nat) : Prop := flags &&& bit ≠ 0

instance (flags bit : Nat) : Decidable (flags_contain flags bit) := by
  unfold flags_contain
  infer_instance

/-- The per-method attribute slots filled by the projection loop of
Method::parse (src/elements/parsing/method_info.rs, lines 243-277). -/
structure MethodSlots where
  body : Option MethodBody := none
  exceptions : Option (List ClassReference) := none
  rt_visible_anno : Option (List AnnotationA) := none
  rt_invisible_anno : Option (List AnnotationA) := none
  rt_visible_type_anno : Option (List TypeAnnotationA) := none
  rt_invisible_type_anno : Option (List TypeAnnotationA) := none
  rt_visible_param_anno : Option (List (List AnnotationA)) := none
  rt_invisible_param_anno : Option (List (List AnnotationA)) := none
  annotation_default : Option ElementValueA := none
  method_parameters : Option (List MethodParameter) := none
  is_synthetic : Bool := false
  is_deprecated : Bool := false
  signature : Option String := none

/-- One step of the method attribute projection loop
(src/elements/parsing/method_info.rs, lines 256-277): Code, Exceptions,
MethodParameters and Signature go through fill_once; the annotation slots
are plainly overwritten; any other attribute is unexpected at
method_info. -/
def methodAttrStep (s : MethodSlots) : Attribute → PResult MethodSlots
  | .Code b => do
    let x ← fillOnce s.body b ("code")
    .ok { s with body := x }
  | .Exceptions ex => do
    let x ← fillOnce s.exceptions ex ("exception table")
    .ok { s with exceptions := x }
  | .RuntimeVisibleAnnotations it => .ok { s with rt_visible_anno := some it }
  | .RuntimeInvisibleAnnotations it => .ok { s with rt_invisible_anno := some it }
  | .RuntimeVisibleTypeAnnotations it => .ok { s with rt_visible_type_anno := some it }
  | .RuntimeInvisibleTypeAnnotations it => .ok { s with rt_invisible_type_anno := some it }
  | .RuntimeVisibleParameterAnnotations it => .ok { s with rt_visible_param_anno := some it }
  | .RuntimeInvisibleParameterAnnotations it => .ok { s with rt_invisible_param_anno := some it }
  | .AnnotationDefault ad => .ok { s with annotation_default := some ad }
  | .MethodParameters mp => do
    let x ← fillOnce s.method_parameters mp ("method parameter table")
    .ok { s with method_parameters := x }
  | .Synthetic => .ok { s with is_synthetic := true }
  | .Deprecated => .ok { s with is_deprecated := true }
  | .Signature sig => do
    let x ← fillOnce s.signature sig ("signagure")
    .ok { s with signature := x }
  | it => .error (.unexpectedAttribute (it.name) ("method_info"))

/-- The whole method attribute projection loop. -/
def methodAttrSlots (attrs : List Attribute) : PResult MethodSlots :=
  attrs.foldlM methodAttrStep {}

/-- The Method record, fields per the construction at the end of
Method::parse (src/elements/parsing/method_info.rs, lines 300-318;
excaptions sic from the source). -/
structure Method where
  access_flags : Nat
  name : String
  descriptor : MethodDescriptor
  body : Option MethodBody
  excaptions : List ClassReference
  runtime_visible_annotations : List AnnotationA
  runtime_invisible_annotations : List AnnotationA
  runtime_visible_type_annotations : List TypeAnnotationA
  runtime_invisible_type_annotations : List TypeAnnotationA
  runtime_visible_parameter_annotations : List (List AnnotationA)
  runtime_invisible_parameter_annotations : List (List AnnotationA)
  annotation_default : Option ElementValueA
  parameters : List MethodParameter
  is_synthetic : Bool
  is_deprecated : Bool
  signature : Option String

/-- The Method construction at the end of Method::parse
(src/elements/parsing/method_info.rs, lines 300-318), with the
unwrap_or_default projections of the slots. -/
def mkMethod (access_flags : Nat) (name : String) (descriptor : MethodDescriptor)
    (s : MethodSlots) : Method :=
  { access_flags := access_flags
    name := name
    descriptor := descriptor
    body := s.body
    excaptions := s.exceptions.getD []
    runtime_visible_annotations := s.rt_visible_anno.getD []
    runtime_invisible_annotations := s.rt_invisible_anno.getD []
    runtime_visible_type_annotations := s.rt_visible_type_anno.getD []
    runtime_invisible_type_annotations := s.rt_invisible_type_anno.getD []
    runtime_visible_parameter_annotations := s.rt_visible_param_anno.getD []
    runtime_invisible_parameter_annotations := s.rt_invisible_param_anno.getD []
    annotation_default := s.annotation_default
    parameters := s.method_parameters.getD []
    is_synthetic := s.is_synthetic
    is_deprecated := s.is_deprecated
    signature := s.signature }

/-- Method::parse (src/elements/parsing/method_info.rs, lines 224-319)
from the point where access flags, name and descriptor have been resolved
and the attribute list has been parsed: project the attributes into slots,
then enforce JVMS 4.7.3: a native or abstract method that is not the class
initializer must not have a Code attribute; otherwise the method must have
exactly one. -/
def Method.parseFromAttrs (access_flags : Nat) (name : String) (descriptor : MethodDescriptor)
    (attrs : List Attribute) : PResult Method := do
  let s ← methodAttrSlots attrs
  if (flags_contain access_flags METHOD_ACC_NATIVE ∨ flags_contain access_flags METHOD_ACC_ABSTRACT)
      ∧ name ≠ CLASS_INITIALIZER_NAME then
    if s.body.isSome then .error (.malformedClassFile ("Unexpected code attribute"))
    else .ok (mkMethod access_flags name descriptor s)
  else
    if s.body.isNone then .error (.malformedClassFile ("The method must have a body"))
    else .ok (mkMethod access_flags name descriptor s)

/-- ExceptionTableEntry::parse (src/elements/parsing/method_info.rs,
lines 20-44): four big-endian u16 reads; a zero catch_type index denotes
no catch class, a nonzero one resolves to a class reference. -/
def ExceptionTableEntry.parse (cp : ConstantPool) (bytes : List Nat) (pos : Nat) :
    PResult (ExceptionTableEntry × Nat) := do
  let (start_pc, p1) ← read_u16 bytes pos
  let (end_pc, p2) ← read_u16 bytes p1
  let (handler_pc, p3) ← read_u16 bytes p2
  let (catch_type_idx, p4) ← read_u16 bytes p3
  let catch_type ← if catch_type_idx = 0 then pure none
    else do
      let c ← get_class_ref cp catch_type_idx
      pure (some c)
  .ok ({ start_pc := start_pc, end_pc := end_pc, handler_pc := handler_pc,
         catch_type := catch_type }, p4)

/-- The per-class attribute slots filled by the projection loop of
ClassParser::parse (src/elements/class_parser.rs, lines 70-88). -/
structure ClassSlots where
  source_file : Option String := none
  inner_classes : Option (List Nat) := none
  enclosing_method : Option (Nat × Nat) := none
  source_debug_extension : Option (List Nat) := none
  rt_visible_anno : Option (List AnnotationA) := none
  rt_invisible_anno : Option (List AnnotationA) := none
  rt_visible_type_anno : Option (List TypeAnnotationA) := none
  rt_invisible_type_anno : Option (List TypeAnnotationA) := none
  bootstrap_methods : Option (List Nat) := none
  module : Option (List Nat) := none
  module_packages : Option (List Nat) := none
  module_main_class : Option ClassReference := none
  nest_host : Option ClassReference := none
  nest_members : Option (List ClassReference) := none
  permitted_subclasses : Option (List ClassReference) := none
  is_synthetic : Bool := false
  is_deprecated : Bool := false
  signature : Option String := none
  record : Option (List Nat) := none

/-- One step of the class attribute projection loop
(src/elements/class_parser.rs, lines 89-115): every slot is plainly
overwritten on assignment; any other attribute is unexpected at
class_file. -/
def classAttrStep (s : ClassSlots) : Attribute → PResult ClassSlots
  | .SourceFile file_name => .ok { s with source_file := some file_name }
  | .InnerClasses it => .ok { s with inner_classes := some it }
  | .EnclosingMethod c m => .ok { s with enclosing_method := some (c, m) }
  | .SourceDebugExtension sde => .ok { s with source_debug_extension := some sde }
  | .RuntimeVisibleAnnotations rv => .ok { s with rt_visible_anno := some rv }
  | .RuntimeInvisibleAnnotations ri => .ok { s with rt_invisible_anno := some ri }
  | .RuntimeVisibleTypeAnnotations rv => .ok { s with rt_visible_type_anno := some rv }
  | .RuntimeInvisibleTypeAnnotations ri => .ok { s with rt_invisible_type_anno := some ri }
  | .BootstrapMethods bm => .ok { s with bootstrap_methods := some bm }
  | .Module m => .ok { s with module := some m }
  | .ModulePackages mp => .ok { s with module_packages := some mp }
  | .ModuleMainClass mmc => .ok { s with module_main_class := some mmc }
  | .NestHost nh => .ok { s with nest_host := some nh }
  | .NestMembers nm => .ok { s with nest_members := some nm }
  | .PermittedSubclasses ps => .ok { s with permitted_subclasses := some ps }
  | .Synthetic => .ok { s with is_synthetic := true }
  | .Deprecated => .ok { s with is_deprecated := true }
  | .Signature sig => .ok { s with signature := some sig }
  | .Record rec => .ok { s with record := some rec }
  | it => .error (.unexpectedAttribute (it.name) ("class_file"))

/-- The whole class attribute projection loop. -/
def classAttrSlots (attrs : List Attribute) : PResult ClassSlots :=
  attrs.foldlM classAttrStep {}

/-- JAVA_CLASS_MAIGC (sic), from src/elements/class_parser.rs. -/
def JAVA_CLASS_MAIGC : Nat := 0xCAFEBABE

/-- The magic-number stage of ClassParser::parse
(src/elements/class_parser.rs, lines 22-25): read a big-endian u32 from
the start of the input and require 0xCAFEBABE; on success return the
cursor position after the magic, from which parsing continues. -/
def classMagicCheck (bytes : List Nat) : PResult Nat := do
  let (magic, p) ← read_u32 bytes 0
  if magic ≠ JAVA_CLASS_MAIGC then .error .notAClassFile
  else .ok p

/-- The super_class stage of ClassParser::parse
(src/elements/class_parser.rs, lines 34-42), given the already-resolved
this_class reference and access flags and the raw super_class index: index
zero is accepted exactly for java/lang/Object or a MODULE-flagged class,
and any nonzero index resolves to a class reference. -/
def superClassOf (cp : ConstantPool) (this_class : ClassReference) (access_flags : Nat)
    (super_class_idx : Nat) : PResult (Option ClassReference) :=
  if super_class_idx = 0 then
    if this_class.binary_name = ("java/lang/Object") then .ok none
    else if flags_contain access_flags CLASS_ACC_MODULE then .ok none
    else .error (.malformedClassFile
      ("Class must have a super type except for java/lang/Object or a module"))
  else do
    let c ← get_class_ref cp super_class_idx
    .ok (some c)

/-- Modelled from the spec: the JVMS-defined base opcode byte values, 0x00
through 0xc9 (aaload through jsr_w); bytes at 0xca and above are reserved
or undefined and are not base opcodes. -/
def jvmsBaseOpcodes : List Nat := List.range 0xca

/-- An empty constant pool, for code that resolves nothing. -/
def cpEmpty : ConstantPool := ⟨[]⟩

/-- A pool with a single class entry (index 2) naming java/lang/Thing. -/
def cpThing : ConstantPool := ⟨[.utf8 ("java/lang/Thing"), .classInfo 1]⟩

/-- A pool with three Utf8 entries, for element-value decoding. -/
def cpAnn : ConstantPool := ⟨[.utf8 ("LA;"), .utf8 ("B"), .utf8 ("C")]⟩

/-- A pool whose first entry is the Integer constant 7. -/
def cpInt : ConstantPool := ⟨[.integer 7]⟩

/-- A pool carrying an interface method reference (index 6), a class
method reference (index 7) and a method handle (index 8) over the class
Foo (index 2) and the name-and-type bar()V (index 5). -/
def cpIfc : ConstantPool :=
  ⟨[.utf8 ("Foo"), .classInfo 1, .utf8 ("bar"), .utf8 ("()V"), .nameAndTypeInfo 3 4,
    .interfaceMethodRefInfo 2 5, .methodRefInfo 2 5, .methodHandleInfo 6 7]⟩

lemma parseFromAttrs_of_slots (a : Nat) (nm : String) (d : MethodDescriptor)
    (attrs : List Attribute) (s : MethodSlots) (h : methodAttrSlots attrs = .ok s) :
    Method.parseFromAttrs a nm d attrs =
      if (flags_contain a METHOD_ACC_NATIVE ∨ flags_contain a METHOD_ACC_ABSTRACT)
          ∧ nm ≠ CLASS_INITIALIZER_NAME then
        if s.body.isSome then .error (.malformedClassFile ("Unexpected code attribute"))
        else .ok (mkMethod a nm d s)
      else
        if s.body.isNone then .error (.malformedClassFile ("The method must have a body"))
        else .ok (mkMethod a nm d s) := by
  unfold Method.parseFromAttrs
  rw [h]
  rfl

lemma methodAttrStep_body (s0 : MethodSlots) (a : Attribute) (s1 : MethodSlots)
    (h : methodAttrStep s0 a = .ok s1) :
    (s1.body = s0.body ∧ ∀ b, a ≠ Attribute.Code b) ∨
      ∃ b, a = Attribute.Code b ∧ s0.body = none ∧ s1.body = some b := by
  cases a with
  | Code b0 =>
    right
    replace h : Except.bind (fillOnce s0.body b0 ("code"))
        (fun x => (.ok { s0 with body := x } : PResult MethodSlots)) = .ok s1 := h
    cases hb : s0.body with
    | none =>
      rw [hb] at h
      injection h with h
      subst h
      exact ⟨b0, rfl, rfl, rfl⟩
    | some b1 =>
      rw [hb] at h
      exact Except.noConfusion h
  | Exceptions ex =>
    left
    replace h : Except.bind (fillOnce s0.exceptions ex ("exception table"))
        (fun x => (.ok { s0 with exceptions := x } : PResult MethodSlots)) = .ok s1 := h
    cases hx : s0.exceptions with
    | none =>
      rw [hx] at h
      injection h with h
      subst h
      exact ⟨rfl, fun b hne => Attribute.noConfusion hne⟩
    | some y =>
      rw [hx] at h
      exact Except.noConfusion h
  | MethodParameters mp =>
    left
    replace h : Except.bind (fillOnce s0.method_parameters mp ("method parameter table"))
        (fun x => (.ok { s0 with method_parameters := x } : PResult MethodSlots)) = .ok s1 := h
    cases hx : s0.method_parameters with
    | none =>
      rw [hx] at h
      injection h with h
      subst h
      exact ⟨rfl, fun b hne => Attribute.noConfusion hne⟩
    | some y =>
      rw [hx] at h
      exact Except.noConfusion h
  | Signature sig =>
    left
    replace h : Except.bind (fillOnce s0.signature sig ("signagure"))
        (fun x => (.ok { s0 with signature := x } : PResult MethodSlots)) = .ok s1 := h
    cases hx : s0.signature with
    | none =>
      rw [hx] at h
      injection h with h
      subst h
      exact ⟨rfl, fun b hne => Attribute.noConfusion hne⟩
    | some y =>
      rw [hx] at h
      exact Except.noConfusion h
  | RuntimeVisibleAnnotations it =>
    left
    injection h with h
    subst h
    exact ⟨rfl, fun b hne => Attribute.noConfusion hne⟩
  | RuntimeInvisibleAnnotations it =>
    left
    injection h with h
    subst h
    exact ⟨rfl, fun b hne => Attribute.noConfusion hne⟩
  | RuntimeVisibleTypeAnnotations it =>
    left
    injection h with h
    subst h
    exact ⟨rfl, fun b hne => Attribute.noConfusion hne⟩
  | RuntimeInvisibleTypeAnnotations it =>
    left
    injection h with h
    subst h
    exact ⟨rfl, fun b hne => Attribute.noConfusion hne⟩
  | RuntimeVisibleParameterAnnotations it =>
    left
    injection h with h
    subst h
    exact ⟨rfl, fun b hne => Attribute.noConfusion hne⟩
  | RuntimeInvisibleParameterAnnotations it =>
    left
    injection h with h
    subst h
    exact ⟨rfl, fun b hne => Attribute.noConfusion hne⟩
  | AnnotationDefault ad =>
    left
    injection h with h
    subst h
    exact ⟨rfl, fun b hne => Attribute.noConfusion hne⟩
  | Synthetic =>
    left
    injection h with h
    subst h
    exact ⟨rfl, fun b hne => Attribute.noConfusion hne⟩
  | Deprecated =>
    left
    injection h with h
    subst h
    exact ⟨rfl, fun b hne => Attribute.noConfusion hne⟩
  | ConstantValue cv => exact Except.noConfusion h
  | StackMapTable x => exact Except.noConfusion h
  | InnerClasses x => exact Except.noConfusion h
  | EnclosingMethod x y => exact Except.noConfusion h
  | SourceFile x => exact Except.noConfusion h
  | SourceDebugExtension x => exact Except.noConfusion h
  | LineNumberTable x => exact Except.noConfusion h
  | LocalVariableTable x => exact Except.noConfusion h
  | LocalVariableTypeTable x => exact Except.noConfusion h
  | BootstrapMethods x => exact Except.noConfusion h
  | Module x => exact Except.noConfusion h
  | ModulePackages x => exact Except.noConfusion h
  | ModuleMainClass x => exact Except.noConfusion h
  | NestHost x => exact Except.noConfusion h
  | NestMembers x => exact Except.noConfusion h
  | Record x => exact Except.noConfusion h
  | PermittedSubclasses x => exact Except.noConfusion h

lemma methodAttrSlots_body_iff : ∀ (attrs : List Attribute) (s0 s : MethodSlots),
    List.foldlM methodAttrStep s0 attrs = .ok s →
    (s.body.isSome = true ↔ s0.body.isSome = true ∨ ∃ b, Attribute.Code b ∈ attrs) := by
  intro attrs
  induction attrs with
  | nil =>
    intro s0 s h
    replace h : (.ok s0 : PResult MethodSlots) = .ok s := h
    injection h with h
    subst h
    simp
  | cons a t ih =>
    intro s0 s h
    replace h : Except.bind (methodAttrStep s0 a)
        (fun s1 => List.foldlM methodAttrStep s1 t) = .ok s := h
    cases hstep : methodAttrStep s0 a with
    | error e =>
      rw [hstep] at h
      exact Except.noConfusion h
    | ok s1 =>
      rw [hstep] at h
      replace h : List.foldlM methodAttrStep s1 t = .ok s := h
      have hrec := ih s1 s h
      rw [hrec]
      rcases methodAttrStep_body s0 a s1 hstep with ⟨heq, hne⟩ | ⟨b0, rfl, hnone, hsome⟩
      · rw [heq]
        constructor
        · rintro (hx | ⟨b, hb⟩)
          · exact Or.inl hx
          · exact Or.inr ⟨b, List.mem_cons_of_mem a hb⟩
        · rintro (hx | ⟨b, hb⟩)
          · exact Or.inl hx
          · rcases List.mem_cons.mp hb with heq2 | hmem
            · exact absurd heq2.symm (hne b)
            · exact Or.inr ⟨b, hmem⟩
      · rw [hsome, hnone]
        simp only [Option.isSome_some, Option.isSome_none]
        constructor
        · intro _
          exact Or.inr ⟨b0, List.mem_cons_self _ _⟩
        · intro _
          exact Or.inl trivial

/-- C1: the claim says Instruction::parse_code returns an ordered map from
program counter to decoded instruction keyed by the opcode's byte offset;
the function in the source instead returns a plain Vec in stream order,
dropping the offsets (its own caller in src/analysis/test.rs destructures
the instructions as pc-instruction pairs). On the code bytes bipush 5
followed by nop, the second instruction's opcode byte offset is 2, but the
returned list carries it at position 1 with no key; the spec-modelled
pc-keyed decoding of the same bytes records offsets 0 and 2. -/
theorem c1_parse_code_positional_not_pc_keyed :
    Instruction.parse_code cpEmpty [0x10, 5, 0] = .ok [.BiPush 5, .Nop]
    ∧ parseCodeWithPcs cpEmpty [0x10, 5, 0] = .ok [(0, .BiPush 5), (2, .Nop)] :=
  ⟨rfl, rfl⟩

/-- C5: the claim says Instruction::parse recognizes every JVMS base
opcode and fails with UnexpectedOpCode exactly on bytes that are not JVMS
opcodes; the dispatch in the source has no arm for 0xa7 (goto), a
JVMS-defined base opcode, so decoding goto +3 fails with
UnexpectedOpCode(0xa7). -/
theorem c5_goto_opcode_unexpected :
    Instruction.parse cpEmpty [0xa7, 0, 3] 0 = .error (.unexpectedOpCode 0xa7)
    ∧ 0xa7 ∈ jvmsBaseOpcodes :=
  ⟨rfl, by decide⟩

/-- C7 counterexample: a second SourceFile attribute at the class site is
silently kept (the last occurrence overwrites the slot) and parsing
succeeds, contradicting the claim that a second occurrence of a once-only
attribute causes parsing to fail. -/
theorem c7_duplicate_source_file_overwrites :
    classAttrSlots [.SourceFile ("A.java"), .SourceFile ("B.java")] =
      .ok { source_file := some ("B.java") } :=
  rfl

/-- C7 amended: at the method site, duplicates of Code, Exceptions,
MethodParameters and Signature fail fatally (through the fill-once
helper), while at the class site every attribute slot, SourceFile and
Signature included, is silently overwritten by the last occurrence. -/
theorem c7_duplicate_policy :
    ∀ (b1 b2 : MethodBody) (x1 x2 : List ClassReference) (p1 p2 : List MethodParameter)
      (g1 g2 f1 f2 : String),
      methodAttrSlots [.Code b1, .Code b2] = .error (.malformedClassFile ("Duplicate code"))
      ∧ methodAttrSlots [.Exceptions x1, .Exceptions x2] =
          .error (.malformedClassFile ("Duplicate exception table"))
      ∧ methodAttrSlots [.MethodParameters p1, .MethodParameters p2] =
          .error (.malformedClassFile ("Duplicate method parameter table"))
      ∧ methodAttrSlots [.Signature g1, .Signature g2] =
          .error (.malformedClassFile ("Duplicate signagure"))
      ∧ classAttrSlots [.SourceFile f1, .SourceFile f2] = .ok { source_file := some f2 }
      ∧ classAttrSlots [.Signature g1, .Signature g2] = .ok { signature := some g2 } :=
  fun _ _ _ _ _ _ _ _ _ _ => ⟨rfl, rfl, rfl, rfl, rfl, rfl⟩

/-- C3 counterexample: a method named clinit with the ABSTRACT flag and no
Code attribute is rejected by Method::parse with MalformedClassFile, not
accepted; the source's clinit special case works the other way around,
exempting clinit from the no-Code requirement rather than from the
must-have-Code requirement. -/
theorem c3_abstract_clinit_without_code_rejected :
    Method.parseFromAttrs 0x0400 CLASS_INITIALIZER_NAME { raw := ("()V") } [] =
      .error (.malformedClassFile ("The method must have a body")) :=
  rfl

/-- C3 amended: a clinit method with no Code attribute is rejected with
MalformedClassFile whatever its access flags (ABSTRACT included), and a
clinit method carrying a Code attribute is accepted with that body, again
whatever its flags. -/
theorem c3_clinit_code_rule :
    ∀ (access_flags : Nat) (d : MethodDescriptor) (b : MethodBody),
      Method.parseFromAttrs access_flags CLASS_INITIALIZER_NAME d [] =
        .error (.malformedClassFile ("The method must have a body"))
      ∧ ∃ m, Method.parseFromAttrs access_flags CLASS_INITIALIZER_NAME d [.Code b] = .ok m
          ∧ m.body = some b := by
  intro a d b
  constructor
  · rw [parseFromAttrs_of_slots a CLASS_INITIALIZER_NAME d [] {} rfl]
    rw [if_neg (fun h => h.2 rfl)]
    rfl
  · refine ⟨mkMethod a CLASS_INITIALIZER_NAME d { body := some b }, ?_, rfl⟩
    rw [parseFromAttrs_of_slots a CLASS_INITIALIZER_NAME d [.Code b] { body := some b } rfl]
    rw [if_neg (fun h => h.2 rfl)]
    rfl

/-- C2: for a method whose name is not clinit, once the attribute
projection succeeds, parsing succeeds with an absent body exactly when the
access flags contain NATIVE or ABSTRACT; a NATIVE or ABSTRACT method whose
attributes carry a Code fails with MalformedClassFile, and a method with
neither flag and no Code fails with MalformedClassFile; the projected body
slot is filled exactly when the attribute list carries a Code attribute. -/
theorem c2_body_absent_iff_native_or_abstract :
    ∀ (access_flags : Nat) (nm : String) (d : MethodDescriptor)
      (attrs : List Attribute) (s : MethodSlots),
      nm ≠ CLASS_INITIALIZER_NAME →
      methodAttrSlots attrs = .ok s →
      ((∀ m, Method.parseFromAttrs access_flags nm d attrs = .ok m →
          (m.body = none ↔
            (flags_contain access_flags METHOD_ACC_NATIVE
              ∨ flags_contain access_flags METHOD_ACC_ABSTRACT)))
       ∧ ((flags_contain access_flags METHOD_ACC_NATIVE
            ∨ flags_contain access_flags METHOD_ACC_ABSTRACT) →
          s.body.isSome = true →
          Method.parseFromAttrs access_flags nm d attrs =
            .error (.malformedClassFile ("Unexpected code attribute")))
       ∧ (¬(flags_contain access_flags METHOD_ACC_NATIVE
            ∨ flags_contain access_flags METHOD_ACC_ABSTRACT) →
          s.body = none →
          Method.parseFromAttrs access_flags nm d attrs =
            .error (.malformedClassFile ("The method must have a body")))
       ∧ (s.body.isSome = true ↔ ∃ b, Attribute.Code b ∈ attrs)) := by
  intro a nm d attrs s hnm hs
  rw [parseFromAttrs_of_slots a nm d attrs s hs]
  refine ⟨?_, ?_, ?_, ?_⟩
  · intro m hm
    by_cases hNA : flags_contain a METHOD_ACC_NATIVE ∨ flags_contain a METHOD_ACC_ABSTRACT
    · rw [if_pos ⟨hNA, hnm⟩] at hm
      cases hb : s.body with
      | none =>
        rw [hb] at hm
        injection hm with hm
        subst hm
        simp only [mkMethod, hb]
        exact iff_of_true trivial hNA
      | some b =>
        rw [hb] at hm
        exact Except.noConfusion hm
    · rw [if_neg (fun hc => hNA hc.1)] at hm
      cases hb : s.body with
      | none =>
        rw [hb] at hm
        exact Except.noConfusion hm
      | some b =>
        rw [hb] at hm
        injection hm with hm
        subst hm
        simp only [mkMethod, hb]
        exact ⟨fun hc => Option.noConfusion hc, fun hc => absurd hc hNA⟩
  · intro hNA hb
    rw [if_pos ⟨hNA, hnm⟩, if_pos hb]
  · intro hNA hb
    rw [if_neg (fun hc => hNA hc.1), if_pos (by simp [hb] : s.body.isNone = true)]
  · have := methodAttrSlots_body_iff attrs {} s hs
    simpa using this

/-- C2 witness: the rule instantiated for a NATIVE method named m with an
empty attribute list. -/
theorem c2_body_absent_iff_native_or_abstract_witness :
    ((∀ m, Method.parseFromAttrs 256 ("m") { raw := ("()V") } [] = .ok m →
        (m.body = none ↔
          (flags_contain 256 METHOD_ACC_NATIVE ∨ flags_contain 256 METHOD_ACC_ABSTRACT)))
     ∧ ((flags_contain 256 METHOD_ACC_NATIVE ∨ flags_contain 256 METHOD_ACC_ABSTRACT) →
        ({} : MethodSlots).body.isSome = true →
        Method.parseFromAttrs 256 ("m") { raw := ("()V") } [] =
          .error (.malformedClassFile ("Unexpected code attribute")))
     ∧ (¬(flags_contain 256 METHOD_ACC_NATIVE ∨ flags_contain 256 METHOD_ACC_ABSTRACT) →
        ({} : MethodSlots).body = none →
        Method.parseFromAttrs 256 ("m") { raw := ("()V") } [] =
          .error (.malformedClassFile ("The method must have a body")))
     ∧ (({} : MethodSlots).body.isSome = true ↔ ∃ b, Attribute.Code b ∈ ([] : List Attribute))) :=
  c2_body_absent_iff_native_or_abstract 256 ("m") { raw := ("()V") } [] {} (by decide) rfl

/-- C4 counterexample: a successfully parsed class named java/lang/Object
with a nonzero super_class index keeps a present super_class, refuting the
claimed biconditional (absent iff the class is java/lang/Object or
MODULE-flagged): here the right side holds and super_class is present. -/
theorem c4_object_with_nonzero_super_kept :
    superClassOf cpThing { binary_name := ("java/lang/Object") } 0 2 =
      .ok (some { binary_name := ("java/lang/Thing") })
    ∧ (("java/lang/Object") = ("java/lang/Object") ∨ flags_contain 0 CLASS_ACC_MODULE) :=
  ⟨rfl, Or.inl rfl⟩

/-- C4 amended: super_class is absent exactly when the raw super_class
index is zero and the class is java/lang/Object or MODULE-flagged; a zero
index on any other class fails with MalformedClassFile; a nonzero index
always resolves (super_class present on success, even for a class named
java/lang/Object or flagged MODULE). -/
theorem c4_super_class_rule :
    ∀ (cp : ConstantPool) (this_class : ClassReference) (access_flags idx : Nat),
      (∀ r, superClassOf cp this_class access_flags idx = .ok r →
        (r = none ↔ idx = 0 ∧ (this_class.binary_name = ("java/lang/Object")
          ∨ flags_contain access_flags CLASS_ACC_MODULE)))
      ∧ (idx = 0 →
         ¬(this_class.binary_name = ("java/lang/Object")
            ∨ flags_contain access_flags CLASS_ACC_MODULE) →
         superClassOf cp this_class access_flags idx =
           .error (.malformedClassFile
             ("Class must have a super type except for java/lang/Object or a module"))) := by
  intro cp tc a idx
  constructor
  · intro r hr
    unfold superClassOf at hr
    by_cases h0 : idx = 0
    · rw [if_pos h0] at hr
      by_cases hobj : tc.binary_name = ("java/lang/Object")
      · rw [if_pos hobj] at hr
        injection hr with hr
        subst hr
        simp [h0, hobj]
      · rw [if_neg hobj] at hr
        by_cases hmod : flags_contain a CLASS_ACC_MODULE
        · rw [if_pos hmod] at hr
          injection hr with hr
          subst hr
          simp [h0, hmod]
        · rw [if_neg hmod] at hr
          exact Except.noConfusion hr
    · rw [if_neg h0] at hr
      cases hg : get_class_ref cp idx with
      | error e =>
        rw [hg] at hr
        exact Except.noConfusion hr
      | ok c =>
        rw [hg] at hr
        replace hr : (Except.ok (some c) : PResult (Option ClassReference)) = .ok r := hr
        injection hr with hr
        subst hr
        simp [h0]
  · intro h0 hno
    unfold superClassOf
    rw [if_pos h0]
    rw [if_neg (fun h => hno (Or.inl h))]
    rw [if_neg (fun h => hno (Or.inr h))]

/-- C4 witness: a zero super_class index on a class that is neither
java/lang/Object nor MODULE-flagged fails. -/
theorem c4_super_class_rule_witness :
    superClassOf cpThing { binary_name := ("X") } 0 0 =
      .error (.malformedClassFile
        ("Class must have a super type except for java/lang/Object or a module")) :=
  (c4_super_class_rule cpThing { binary_name := ("X") } 0 0).2 rfl (by decide)

/-- C6: decoding invokeinterface (0xb9) resolves the method reference and
fails with MalformedClassFile when it resolves to the Class variant; with
the Interface variant it reads a count byte and a reserved byte, failing
when the reserved byte is nonzero and succeeding with the resolved
reference and count otherwise; decoding invokedynamic (0xba) resolves the
method handle, reads two reserved bytes, fails when either is nonzero and
succeeds with the resolved handle otherwise. -/
theorem c6_invoke_reserved_byte_checks :
    ∀ (cp : ConstantPool) (i1 i2 c z z1 z2 : Nat) (rest rest2 : List Nat),
      (∀ m, get_method_ref cp (i1 * 256 + i2) = .ok (.Class m) →
        Instruction.parse cp (0xb9 :: i1 :: i2 :: c :: z :: rest) 0 =
          .error (.malformedClassFile ("")))
      ∧ (∀ m, get_method_ref cp (i1 * 256 + i2) = .ok (.Interface m) →
          ((z ≠ 0 →
            Instruction.parse cp (0xb9 :: i1 :: i2 :: c :: z :: rest) 0 =
              .error (.malformedClassFile ("")))
           ∧ (z = 0 →
            Instruction.parse cp (0xb9 :: i1 :: i2 :: c :: z :: rest) 0 =
              .ok (some (.InvokeInterface m c), 5))))
      ∧ (∀ h, get_method_handle cp (i1 * 256 + i2) = .ok h →
          ((¬(z1 = 0 ∧ z2 = 0) →
            Instruction.parse cp (0xba :: i1 :: i2 :: z1 :: z2 :: rest2) 0 =
              .error (.malformedClassFile ("")))
           ∧ (z1 = 0 → z2 = 0 →
            Instruction.parse cp (0xba :: i1 :: i2 :: z1 :: z2 :: rest2) 0 =
              .ok (some (.InvokeDynamic h), 5)))) := by
  intro cp i1 i2 c z z1 z2 rest rest2
  have hb9 : Instruction.parse cp (0xb9 :: i1 :: i2 :: c :: z :: rest) 0 =
      Except.bind
        (Except.bind (get_method_ref cp (i1 * 256 + i2)) (fun mref =>
          match mref with
          | .Interface method_ref =>
              if z ≠ 0 then .error (.malformedClassFile (""))
              else .ok (.InvokeInterface method_ref c, 5)
          | .Class _ => .error (.malformedClassFile (""))))
        (fun x => .ok (some x.1, x.2)) := rfl
  have hba : Instruction.parse cp (0xba :: i1 :: i2 :: z1 :: z2 :: rest2) 0 =
      Except.bind
        (Except.bind (get_method_handle cp (i1 * 256 + i2)) (fun method_handle =>
          if z1 * 256 + z2 ≠ 0 then .error (.malformedClassFile (""))
          else .ok (.InvokeDynamic method_handle, 5)))
        (fun x => .ok (some x.1, x.2)) := rfl
  refine ⟨?_, ?_, ?_⟩
  · intro m hm
    rw [hb9, hm]
    rfl
  · intro m hm
    constructor
    · intro hz
      cases z with
      | zero => exact absurd rfl hz
      | succ z0 =>
        rw [hb9, hm]
        rfl
    · intro hz
      subst hz
      rw [hb9, hm]
      rfl
  · intro h hh
    constructor
    · intro hz
      rw [hba, hh]
      simp only [Except.bind]
      rw [if_pos (by omega : z1 * 256 + z2 ≠ 0)]
    · intro hz1 hz2
      subst hz1
      subst hz2
      rw [hba, hh]
      rfl

/-- C6 witness: an invokeinterface over an interface method reference with
a zero reserved byte decodes to the resolved reference and count. -/
theorem c6_invoke_reserved_byte_checks_witness :
    Instruction.parse cpIfc [0xb9, 0, 6, 1, 0] 0 =
      .ok (some (.InvokeInterface
        { interface := { binary_name := ("Foo") }, name := ("bar"),
          descriptor := { raw := ("()V") } } 1), 5) :=
  ((c6_invoke_reserved_byte_checks cpIfc 0 6 1 0 0 0 [] []).2.1
    { interface := { binary_name := ("Foo") }, name := ("bar"),
      descriptor := { raw := ("()V") } } rfl).2 rfl

/-- C8 counterexample: the two-byte input 0xCA 0xFE fails inside the
four-byte magic read with the underlying-source ReadFail error, not with
NotAClassFile as the claim states; NotAClassFile arises only from the
magic comparison, which is never reached. -/
theorem c8_short_input_read_fail :
    classMagicCheck [0xCA, 0xFE] = .error .readFail
    ∧ ClassFileParsingError.readFail ≠ ClassFileParsingError.notAClassFile :=
  ⟨rfl, by decide⟩

/-- C8 amended: an input of at least four bytes whose big-endian first
word is not 0xCAFEBABE fails with NotAClassFile (and one whose first word
is the magic passes the check); an input shorter than four bytes fails
with ReadFail from the byte source. -/
theorem c8_magic_check_rule :
    (∀ (b0 b1 b2 b3 : Nat) (rest : List Nat),
      ((b0 * 256 + b1) * 256 + b2) * 256 + b3 ≠ 0xCAFEBABE →
      classMagicCheck (b0 :: b1 :: b2 :: b3 :: rest) = .error .notAClassFile)
    ∧ (∀ (b0 b1 b2 b3 : Nat) (rest : List Nat),
      ((b0 * 256 + b1) * 256 + b2) * 256 + b3 = 0xCAFEBABE →
      classMagicCheck (b0 :: b1 :: b2 :: b3 :: rest) = .ok 4)
    ∧ (∀ bytes : List Nat, bytes.length < 4 →
      classMagicCheck bytes = .error .readFail) := by
  refine ⟨?_, ?_, ?_⟩
  · intro b0 b1 b2 b3 rest hne
    have hred : classMagicCheck (b0 :: b1 :: b2 :: b3 :: rest) =
        (if ((b0 * 256 + b1) * 256 + b2) * 256 + b3 ≠ 0xCAFEBABE then
          .error .notAClassFile else .ok 4) := rfl
    rw [hred, if_pos hne]
  · intro b0 b1 b2 b3 rest heq
    have hred : classMagicCheck (b0 :: b1 :: b2 :: b3 :: rest) =
        (if ((b0 * 256 + b1) * 256 + b2) * 256 + b3 ≠ 0xCAFEBABE then
          .error .notAClassFile else .ok 4) := rfl
    rw [hred, if_neg (fun hne => hne heq)]
  · intro bytes hlen
    match bytes with
    | [] => rfl
    | [a] => rfl
    | [a, b] => rfl
    | [a, b, c] => rfl
    | a :: b :: c :: d :: t => simp at hlen; omega

/-- C8 witness: a four-byte all-zero input fails with NotAClassFile. -/
theorem c8_magic_check_rule_witness :
    classMagicCheck [0, 0, 0, 0] = .error .notAClassFile :=
  c8_magic_check_rule.1 0 0 0 0 [] (by decide)

/-- C9 counterexample: on the same enum-tagged element value bytes and the
same pool, the two ElementValue::parse drafts consume different bytes (7
against 5) and produce different enum constants, because the
elements/attributes draft reads a two-byte constant index before
dispatching on the tag while the jvm/parsing draft does not; the drafts
are therefore not equivalent. -/
theorem c9_enum_tag_consumption_differs :
    parseElementValueA 9 cpAnn [101, 0, 1, 0, 2, 0, 3] 0 = .ok (.EnumConstant ("B") ("C"), 7)
    ∧ parseElementValueB 9 cpAnn [101, 0, 1, 0, 2, 0, 3] 0 = .ok (.EnumConstant ("LA;") ("B"), 5) :=
  ⟨rfl, rfl⟩

/-- C9 amended: the drafts agree on primitive tags (for tag B both consume
the tag byte plus one two-byte index and yield the same integer constant),
but on an enum-tagged value the elements draft skips an extra two-byte
index after the tag: it ends at offset 7 pairing the second and third
resolved strings, where the jvm draft ends at offset 5 pairing the first
and second; the equivalence claimed for every input fails. -/
theorem c9_draft_agreement_and_divergence :
    ∀ (cp : ConstantPool) (fuel a1 a2 b1 b2 c1 c2 : Nat) (rest rest2 : List Nat)
      (n : Int) (ta tb tc : String),
      (get_constant_value cp (a1 * 256 + a2) = .ok (.Integer n) →
        parseElementValueA (fuel + 1) cp (66 :: a1 :: a2 :: rest) 0 =
          .ok (.Constant (.Integer n), 3)
        ∧ parseElementValueB (fuel + 1) cp (66 :: a1 :: a2 :: rest) 0 =
          .ok (.Constant (.Integer n), 3))
      ∧ (get_str cp (a1 * 256 + a2) = .ok ta →
         get_str cp (b1 * 256 + b2) = .ok tb →
         get_str cp (c1 * 256 + c2) = .ok tc →
        parseElementValueA (fuel + 1) cp (101 :: a1 :: a2 :: b1 :: b2 :: c1 :: c2 :: rest2) 0 =
          .ok (.EnumConstant tb tc, 7)
        ∧ parseElementValueB (fuel + 1) cp (101 :: a1 :: a2 :: b1 :: b2 :: c1 :: c2 :: rest2) 0 =
          .ok (.EnumConstant ta tb, 5)) := by
  intro cp fuel a1 a2 b1 b2 c1 c2 rest rest2 n ta tb tc
  constructor
  · intro hc
    constructor
    · have hred : parseElementValueA (fuel + 1) cp (66 :: a1 :: a2 :: rest) 0 =
          Except.bind (get_constant_value cp (a1 * 256 + a2)) (fun cv =>
            match cv with
            | .Integer v => .ok (.Constant (.Integer v), 3)
            | _ => .error .midmatchedConstantPoolTag) := rfl
      rw [hred, hc]
      rfl
    · simp only [parseElementValueB, evalB]
      simp [read_u8, read_u16, Except.bind, Bind.bind, List.get?, hc]
  · intro ha hb hc
    constructor
    · have hred : parseElementValueA (fuel + 1) cp
          (101 :: a1 :: a2 :: b1 :: b2 :: c1 :: c2 :: rest2) 0 =
          Except.bind (get_str cp (b1 * 256 + b2)) (fun type_name =>
            Except.bind (get_str cp (c1 * 256 + c2)) (fun const_name =>
              .ok (.EnumConstant type_name const_name, 7))) := rfl
      rw [hred, hb, hc]
      rfl
    · have hred : parseElementValueB (fuel + 1) cp
          (101 :: a1 :: a2 :: b1 :: b2 :: c1 :: c2 :: rest2) 0 =
          Except.bind (get_str cp (a1 * 256 + a2)) (fun enum_type =>
            Except.bind (get_str cp (b1 * 256 + b2)) (fun const_name =>
              .ok (.EnumConstant enum_type const_name, 5))) := rfl
      rw [hred, ha, hb]
      rfl

/-- C9 witness: the primitive-tag agreement instantiated on a pool whose
first entry is the Integer constant 7. -/
theorem c9_draft_agreement_and_divergence_witness :
    parseElementValueA 1 cpInt [66, 0, 1] 0 = .ok (.Constant (.Integer 7), 3)
    ∧ parseElementValueB 1 cpInt [66, 0, 1] 0 = .ok (.Constant (.Integer 7), 3) :=
  (c9_draft_agreement_and_divergence cpInt 0 0 1 0 0 0 0 [] [] 7 ("") ("") ("")).1 rfl

/-- C10: ExceptionTableEntry::parse returns the three program counters
exactly as read; the catch type is none exactly when the raw catch_type
index is zero, a nonzero index resolving through the pool to a class
reference, whose resolution error propagates otherwise. -/
theorem c10_exception_table_entry_parse :
    ∀ (cp : ConstantPool) (s1 s2 e1 e2 h1 h2 t1 t2 : Nat) (rest : List Nat),
      (t1 * 256 + t2 = 0 →
        ExceptionTableEntry.parse cp (s1 :: s2 :: e1 :: e2 :: h1 :: h2 :: t1 :: t2 :: rest) 0 =
          .ok ({ start_pc := s1 * 256 + s2, end_pc := e1 * 256 + e2,
                 handler_pc := h1 * 256 + h2, catch_type := none }, 8))
      ∧ (∀ c, t1 * 256 + t2 ≠ 0 → get_class_ref cp (t1 * 256 + t2) = .ok c →
        ExceptionTableEntry.parse cp (s1 :: s2 :: e1 :: e2 :: h1 :: h2 :: t1 :: t2 :: rest) 0 =
          .ok ({ start_pc := s1 * 256 + s2, end_pc := e1 * 256 + e2,
                 handler_pc := h1 * 256 + h2, catch_type := some c }, 8))
      ∧ (∀ err, t1 * 256 + t2 ≠ 0 → get_class_ref cp (t1 * 256 + t2) = .error err →
        ExceptionTableEntry.parse cp (s1 :: s2 :: e1 :: e2 :: h1 :: h2 :: t1 :: t2 :: rest) 0 =
          .error err) := by
  intro cp s1 s2 e1 e2 h1 h2 t1 t2 rest
  have hred : ExceptionTableEntry.parse cp
      (s1 :: s2 :: e1 :: e2 :: h1 :: h2 :: t1 :: t2 :: rest) 0 =
      (if t1 * 256 + t2 = 0 then
        .ok ({ start_pc := s1 * 256 + s2, end_pc := e1 * 256 + e2,
               handler_pc := h1 * 256 + h2, catch_type := none }, 8)
       else Except.bind (get_class_ref cp (t1 * 256 + t2)) (fun c =>
        .ok ({ start_pc := s1 * 256 + s2, end_pc := e1 * 256 + e2,
               handler_pc := h1 * 256 + h2, catch_type := some c }, 8))) := rfl
  refine ⟨?_, ?_, ?_⟩
  · intro h0
    rw [hred, if_pos h0]
  · intro c hne hg
    rw [hred, if_neg hne, hg]
    rfl
  · intro err hne hg
    rw [hred, if_neg hne, hg]
    rfl

/-- C10 witness: an entry with counters 1, 2, 3 and a zero catch_type
index parses to those counters with no catch class. -/
theorem c10_exception_table_entry_parse_witness :
    ExceptionTableEntry.parse cpEmpty [0, 1, 0, 2, 0, 3, 0, 0] 0 =
      .ok ({ start_pc := 1, end_pc := 2, handler_pc := 3, catch_type := none }, 8) :=
  (c10_exception_table_entry_parse cpEmpty 0 1 0 2 0 3 0 0 []).1 rfl
